import Mathlib

/-!
Shallow embedding of the tank-game simulation core of
`src/VanosikDeluxe_OfficeSaga.py` (the "deluxe" tank remake, lines
2046-3300).  Python floats are modelled by exact rationals, `pygame.Rect`
by an integer rectangle, the tile dictionary by a partial function from
grid coordinates to tile types, and the identity of Python objects
(bullets, tanks) by explicit numeric identifiers.  Rendering, sound and
particle effects are presentation-only and are omitted.
-/

namespace Tanchiki

/-- Python `round()` on a real value: round half to even. -/
def py_round (q : ℚ) : ℤ :=
  let f : ℤ := ⌊q⌋
  if q - f < 1/2 then f
  else if 1/2 < q - f then f + 1
  else if f % 2 = 0 then f else f + 1

/-- Python `int()` on a real value: truncation toward zero. -/
def py_int (q : ℚ) : ℤ := q.num / (q.den : ℤ)

/-- `pygame.Rect`: integer left/top corner plus width and height. -/
structure Rect where
  left : ℤ
  top : ℤ
  width : ℤ
  height : ℤ
deriving DecidableEq, Repr

def Rect.right (r : Rect) : ℤ := r.left + r.width

def Rect.bottom (r : Rect) : ℤ := r.top + r.height

/-- `pygame.Rect.colliderect`: strict overlap (shared edges do not collide). -/
def Rect.colliderect (a b : Rect) : Bool :=
  a.left < b.right && a.top < b.bottom && b.left < a.right && b.top < a.bottom

/-- `pygame.Rect.contains`: the argument lies completely inside. -/
def Rect.contains_rect (a b : Rect) : Bool :=
  a.left ≤ b.left && a.top ≤ b.top && b.right ≤ a.right && b.bottom ≤ a.bottom &&
    b.left < a.right && b.top < a.bottom

/-- A rect of size `TILE_SIZE`/`Bullet.SIZE` with a given center, as produced by
assigning `rect.center = (cx, cy)` in pygame (left = cx - width / 2). -/
def Rect.with_center (cx cy w h : ℤ) : Rect :=
  ⟨cx - w / 2, cy - h / 2, w, h⟩

def TILE_SIZE : ℤ := 24
def GRID_SIZE : ℤ := 26
def PLAY_AREA_WIDTH : ℤ := GRID_SIZE * TILE_SIZE
def PLAY_AREA_HEIGHT : ℤ := GRID_SIZE * TILE_SIZE

def PLAYER_LIVES : ℤ := 3
def PLAYER_SPEED : ℚ := 96
def PLAYER_FIRE_DELAY : ℚ := 0.35
def PLAYER_BULLET_SPEED : ℚ := 360

def ENEMY_BASE_COUNT : ℤ := 16
def ENEMY_PER_STAGE : ℤ := 4
def MAX_TOTAL_ENEMIES : ℤ := 40
def MAX_ACTIVE_ENEMIES : ℕ := 4

/-- The four cardinal facing directions. -/
inductive Direction
  | up
  | right
  | down
  | left
deriving DecidableEq, Repr

/-- `Direction.vector`: the unit displacement of each direction. -/
def Direction.vec : Direction → ℤ × ℤ
  | .up => (0, -1)
  | .right => (1, 0)
  | .down => (0, 1)
  | .left => (-1, 0)

inductive TileType
  | brick
  | steel
  | water
  | forest
  | ice
  | base
  | base_ruin
deriving DecidableEq, Repr

/-- `TileDefinition` (the `color` field is presentation-only and omitted). -/
structure TileDefinition where
  tile_type : TileType
  passable : Bool
  bullet_block : Bool
  destructible : Bool
  overlay : Bool
deriving DecidableEq, Repr

def TILE_DEFINITIONS : TileType → TileDefinition
  | .brick => ⟨.brick, false, true, true, false⟩
  | .steel => ⟨.steel, false, true, false, false⟩
  | .water => ⟨.water, false, true, false, false⟩
  | .forest => ⟨.forest, true, false, false, true⟩
  | .ice => ⟨.ice, true, false, false, false⟩
  | .base => ⟨.base, false, true, false, false⟩
  | .base_ruin => ⟨.base_ruin, false, true, false, false⟩

/-- Result of `Level.handle_bullet_collision` (the Python strings
"base" / "brick" / "block"). -/
inductive CollisionResult
  | base
  | brick
  | block
deriving DecidableEq, Repr

/-- The tile grid.  A `Tile` object is determined by its coordinates and its
current tile type (its `definition` is `TILE_DEFINITIONS` of the type and its
`rect` is the tile-sized square at the coordinates), so the `tiles` dict is
a partial map from grid coordinates to tile types.  The `overlay_tiles` list
feeds only the drawing routines and is omitted. -/
structure Level where
  width : ℤ
  height : ℤ
  tiles : ℤ × ℤ → Option TileType
  base_tiles : List (ℤ × ℤ)
  base_alive : Bool

def Level.pixel_width (lvl : Level) : ℤ := lvl.width * TILE_SIZE

def Level.pixel_height (lvl : Level) : ℤ := lvl.height * TILE_SIZE

/-- Integer range `[a, b)` as a list, mirroring Python `range(a, b)`. -/
def int_range (a b : ℤ) : List ℤ :=
  (List.range (b - a).toNat).map fun i : ℕ => a + (i : ℤ)

/-- `Level.iter_tiles`: the tiles whose cells are covered by `rect`, clamped to
the grid, enumerated row-major (top row to bottom, left to right in a row).
Python floor division `//` on ints is `Int.fdiv`. -/
def Level.iter_tiles (lvl : Level) (rect : Rect) : List ((ℤ × ℤ) × TileType) :=
  let left := max (rect.left.fdiv TILE_SIZE) 0
  let right := min ((rect.right - 1).fdiv TILE_SIZE) (lvl.width - 1)
  let top := max (rect.top.fdiv TILE_SIZE) 0
  let bottom := min ((rect.bottom - 1).fdiv TILE_SIZE) (lvl.height - 1)
  (int_range top (bottom + 1)).flatMap fun gy =>
    (int_range left (right + 1)).filterMap fun gx =>
      (lvl.tiles (gx, gy)).map fun t => ((gx, gy), t)

/-- `Level.is_rect_blocked`. -/
def Level.is_rect_blocked (lvl : Level) (rect : Rect) : Bool :=
  rect.left < 0 || rect.top < 0 ||
    rect.right > lvl.pixel_width || rect.bottom > lvl.pixel_height ||
    (lvl.iter_tiles rect).any fun ct => !(TILE_DEFINITIONS ct.2).passable

/-- The loop body of `Level.handle_bullet_collision`, walking the covered
tiles in scan order.  The first tile that is not forest, not ice and
bullet-blocking decides the outcome; a live base tile marks the whole base
destroyed, a destructible tile is popped from the grid, anything else is a
plain block. -/
def Level.handle_aux (lvl : Level) :
    List ((ℤ × ℤ) × TileType) → Level × Option CollisionResult
  | [] => (lvl, none)
  | (c, t) :: rest =>
    if t = .forest then lvl.handle_aux rest
    else if t = .ice then lvl.handle_aux rest
    else if !(TILE_DEFINITIONS t).bullet_block then lvl.handle_aux rest
    else if t = .base ∧ lvl.base_alive then
      ({ lvl with
          base_alive := false,
          tiles := fun c2 =>
            if c2 ∈ lvl.base_tiles then some .base_ruin else lvl.tiles c2 },
        some .base)
    else if (TILE_DEFINITIONS t).destructible then
      ({ lvl with tiles := fun c2 => if c2 = c then none else lvl.tiles c2 },
        some .brick)
    else (lvl, some .block)

/-- `Level.handle_bullet_collision`. -/
def Level.handle_bullet_collision (lvl : Level) (rect : Rect) :
    Level × Option CollisionResult :=
  lvl.handle_aux (lvl.iter_tiles rect)

/-- A bullet.  `bid` stands for the identity of the Python object (list
membership and removal compare objects by identity); `owner` is likewise the
identity of the owning tank (`0` is the player, enemies use positive ids). -/
structure Bullet where
  bid : ℕ
  pos_x : ℚ
  pos_y : ℚ
  direction : Direction
  speed : ℚ
  owner : ℕ
  friendly : Bool
  rect : Rect
deriving DecidableEq, Repr

/-- `Bullet.SIZE`. -/
def BULLET_SIZE : ℤ := 6

/-- `Bullet.update`: advance along the direction and re-center the rect at the
rounded position. -/
def Bullet.update (b : Bullet) (dt : ℚ) : Bullet :=
  let px := b.pos_x + (b.direction.vec.1 : ℚ) * b.speed * dt
  let py := b.pos_y + (b.direction.vec.2 : ℚ) * b.speed * dt
  { b with
      pos_x := px, pos_y := py,
      rect := Rect.with_center (py_round px) (py_round py) BULLET_SIZE BULLET_SIZE }

/-- The shared `Tank` base state.  `tid` is the identity of the Python tank
object (`0` for the player), used as the bullet back-reference. -/
structure Tank where
  tid : ℕ
  pos_x : ℚ
  pos_y : ℚ
  rect : Rect
  speed : ℚ
  fire_delay : ℚ
  bullet_speed : ℚ
  friendly : Bool
  direction : Direction
  cooldown_timer : ℚ
  invulnerable_timer : ℚ
  max_bullets : ℕ
  active_bullets : ℕ
  health : ℤ
deriving DecidableEq, Repr

/-- `Tank.__init__` state for given identity, position and stats. -/
def Tank.make (tid : ℕ) (x y : ℚ) (speed fire_delay bullet_speed : ℚ)
    (friendly : Bool) : Tank :=
  { tid := tid
    pos_x := x, pos_y := y
    rect := ⟨py_int x, py_int y, TILE_SIZE, TILE_SIZE⟩
    speed := speed
    fire_delay := fire_delay
    bullet_speed := bullet_speed
    friendly := friendly
    direction := .up
    cooldown_timer := 0
    invulnerable_timer := 0
    max_bullets := 1
    active_bullets := 0
    health := 1 }

/-- `Tank.update_timers`. -/
def Tank.update_timers (t : Tank) (dt : ℚ) : Tank :=
  let t :=
    if t.cooldown_timer > 0 then
      { t with cooldown_timer := max 0 (t.cooldown_timer - dt) }
    else t
  if t.invulnerable_timer > 0 then
    { t with invulnerable_timer := max 0 (t.invulnerable_timer - dt) }
  else t

/-- An entry of the `others` iterable passed to tank movement: the tank's
`active` attribute (`getattr(other, "active", True)`) and its rect. -/
structure OtherTank where
  active : Bool
  rect : Rect
deriving DecidableEq, Repr

/-- `Tank._collides_with_others`. -/
def Tank.collides_with_others (rect : Rect) (others : List OtherTank) : Bool :=
  others.any fun o => o.active && rect.colliderect o.rect

/-- The `if dx != 0` block of `_try_axis_move`: returns the tank after the
x-phase and whether the x-move was accepted. -/
def Tank.axis_step_x (t : Tank) (dx : ℚ) (lvl : Level)
    (others : List OtherTank) : Tank × Bool :=
  if dx ≠ 0 then
    let new_pos_x := t.pos_x + dx
    let test_rect : Rect :=
      ⟨py_round new_pos_x, py_round t.pos_y, t.rect.width, t.rect.height⟩
    if !lvl.is_rect_blocked test_rect &&
        !Tank.collides_with_others test_rect others then
      ({ t with pos_x := new_pos_x }, true)
    else (t, false)
  else (t, false)

/-- The `if dy != 0` block of `_try_axis_move`, run from the state left by
the x-phase; `moved` carries the flag accumulated so far. -/
def Tank.axis_step_y (t : Tank) (dy : ℚ) (moved : Bool) (lvl : Level)
    (others : List OtherTank) : Tank × Bool :=
  if dy ≠ 0 then
    let new_pos_y := t.pos_y + dy
    let test_rect : Rect :=
      ⟨py_round t.pos_x, py_round new_pos_y, t.rect.width, t.rect.height⟩
    if !lvl.is_rect_blocked test_rect &&
        !Tank.collides_with_others test_rect others then
      ({ t with pos_y := new_pos_y }, true)
    else (t, moved)
  else (t, moved)

/-- `Tank._try_axis_move`: the x-delta and then the y-delta are resolved
independently, the y-phase starting from the position the x-phase produced;
the stored rect is finally re-anchored at the rounded position. -/
def Tank.try_axis_move (t : Tank) (dx dy : ℚ) (lvl : Level)
    (others : List OtherTank) : Tank × Bool :=
  let s1 := t.axis_step_x dx lvl others
  let s2 := s1.1.axis_step_y dy s1.2 lvl others
  ({ s2.1 with
      rect := ⟨py_round s2.1.pos_x, py_round s2.1.pos_y,
        s2.1.rect.width, s2.1.rect.height⟩ },
    s2.2)

/-- `Tank.move`. -/
def Tank.move (t : Tank) (direction : Direction) (dt : ℚ) (lvl : Level)
    (others : List OtherTank) : Tank × Bool :=
  let t := { t with direction := direction }
  let dx := (direction.vec.1 : ℚ) * t.speed * dt
  let dy := (direction.vec.2 : ℚ) * t.speed * dt
  t.try_axis_move dx dy lvl others

/-- `Tank.can_fire`. -/
def Tank.can_fire (t : Tank) : Bool :=
  t.cooldown_timer ≤ 0 && t.active_bullets < t.max_bullets

/-- `Tank.fire`.  `bid` is the identity of the freshly allocated bullet
object. -/
def Tank.fire (t : Tank) (bid : ℕ) : Tank × Option Bullet :=
  if !t.can_fire then (t, none)
  else
    let cx := t.rect.left + t.rect.width / 2
    let cy := t.rect.top + t.rect.height / 2
    let mx := (cx : ℚ) + (t.direction.vec.1 : ℚ) * ((t.rect.width : ℚ) / 2 + (BULLET_SIZE : ℚ) / 2)
    let my := (cy : ℚ) + (t.direction.vec.2 : ℚ) * ((t.rect.width : ℚ) / 2 + (BULLET_SIZE : ℚ) / 2)
    let bullet : Bullet :=
      { bid := bid
        pos_x := mx, pos_y := my
        direction := t.direction
        speed := t.bullet_speed
        owner := t.tid
        friendly := t.friendly
        rect := Rect.with_center (py_round mx) (py_round my) BULLET_SIZE BULLET_SIZE }
    ({ t with cooldown_timer := t.fire_delay, active_bullets := t.active_bullets + 1 },
      some bullet)

/-- `Tank.on_bullet_destroyed`. -/
def Tank.on_bullet_destroyed (t : Tank) : Tank :=
  if t.active_bullets > 0 then { t with active_bullets := t.active_bullets - 1 }
  else t

/-- `Tank.take_damage`: returns the damaged tank and whether it is destroyed. -/
def Tank.take_damage (t : Tank) (amount : ℤ := 1) : Tank × Bool :=
  let t := { t with health := t.health - amount }
  (t, t.health ≤ 0)

inductive BonusType
  | shield
  | rapid_fire
  | speed
  | extra_life
deriving DecidableEq, Repr

/-- `PlayerTank` state on top of the shared `Tank` fields. -/
structure PlayerTank extends Tank where
  spawn_x : ℚ
  spawn_y : ℚ
  base_speed : ℚ
  base_fire_delay : ℚ
  base_bullet_speed : ℚ
  rapid_fire_duration : ℚ
  speed_boost_duration : ℚ
  rapid_fire_timer : ℚ
  speed_boost_timer : ℚ
  lives : ℤ
  active : Bool
  dead : Bool
  respawn_delay : ℚ
  respawn_timer : ℚ
deriving DecidableEq, Repr

/-- `PlayerTank.__init__` (the player has object identity `0`). -/
def PlayerTank.make (x y : ℚ) : PlayerTank :=
  { Tank.make 0 x y PLAYER_SPEED PLAYER_FIRE_DELAY PLAYER_BULLET_SPEED true with
    spawn_x := x, spawn_y := y
    base_speed := PLAYER_SPEED
    base_fire_delay := PLAYER_FIRE_DELAY
    base_bullet_speed := PLAYER_BULLET_SPEED
    rapid_fire_duration := 8
    speed_boost_duration := 6
    rapid_fire_timer := 0
    speed_boost_timer := 0
    lives := PLAYER_LIVES
    active := true
    dead := false
    respawn_delay := 1.6
    respawn_timer := 0 }

/-- `PlayerTank.reset_modifiers`. -/
def PlayerTank.reset_modifiers (p : PlayerTank) : PlayerTank :=
  { p with
      speed := p.base_speed
      fire_delay := p.base_fire_delay
      bullet_speed := p.base_bullet_speed
      max_bullets := 1
      rapid_fire_timer := 0
      speed_boost_timer := 0 }

/-- `PlayerTank.update_powerups`: count each active power-up timer down and,
on the tick where it reaches zero, restore the affected stats from the stored
base values. -/
def PlayerTank.update_powerups (p : PlayerTank) (dt : ℚ) : PlayerTank :=
  let p :=
    if p.rapid_fire_timer > 0 then
      let p := { p with rapid_fire_timer := max 0 (p.rapid_fire_timer - dt) }
      if p.rapid_fire_timer ≤ 0 then
        { p with
            fire_delay := p.base_fire_delay
            bullet_speed := p.base_bullet_speed
            max_bullets := 1 }
      else p
    else p
  if p.speed_boost_timer > 0 then
    let p := { p with speed_boost_timer := max 0 (p.speed_boost_timer - dt) }
    if p.speed_boost_timer ≤ 0 then { p with speed := p.base_speed } else p
  else p

/-- `PlayerTank.apply_bonus` (the returned HUD message string is dropped). -/
def PlayerTank.apply_bonus (p : PlayerTank) (bonus_type : BonusType) : PlayerTank :=
  match bonus_type with
  | .shield => { p with invulnerable_timer := max p.invulnerable_timer 8 }
  | .rapid_fire =>
    { p with
        rapid_fire_timer := p.rapid_fire_duration
        fire_delay := max 0.18 (p.base_fire_delay * 0.55)
        bullet_speed := p.base_bullet_speed * 1.35
        max_bullets := 2 }
  | .speed =>
    { p with
        speed_boost_timer := p.speed_boost_duration
        speed := p.base_speed * 1.3 }
  | .extra_life => { p with lives := p.lives + 1 }

/-- `PlayerTank.reset_position`. -/
def PlayerTank.reset_position (p : PlayerTank) (x y : ℚ) : PlayerTank :=
  let p :=
    { p with
        spawn_x := x, spawn_y := y
        pos_x := x, pos_y := y
        rect := ⟨py_int x, py_int y, p.rect.width, p.rect.height⟩
        direction := .up
        cooldown_timer := 0
        invulnerable_timer := 2
        active_bullets := 0 }
  { p.reset_modifiers with active := true, dead := false, respawn_timer := 0 }

/-- `PlayerTank.start_respawn`. -/
def PlayerTank.start_respawn (p : PlayerTank) : PlayerTank :=
  let p :=
    { p with
        dead := true
        active := false
        respawn_timer := p.respawn_delay
        invulnerable_timer := 0 }
  p.reset_modifiers

/-- Enemy behaviour variants. -/
inductive Variant
  | basic
  | fast
  | heavy
deriving DecidableEq, Repr

/-- `EnemyTank.SCORE_VALUES`. -/
def SCORE_VALUES : Variant → ℕ
  | .basic => 100
  | .fast => 150
  | .heavy => 300

/-- `EnemyTank` state on top of the shared `Tank` fields. -/
structure EnemyTank extends Tank where
  variant : Variant
  score_value : ℕ
  change_dir_timer : ℚ
  fire_timer : ℚ
deriving DecidableEq, Repr

/-- `EnemyTank.__init__`.  `tid` stands for the identity of the enemy object;
`cdt` and `ft` are the values drawn by `random.uniform` for the
direction-change and fire timers. -/
def EnemyTank.make (tid : ℕ) (x y : ℚ) (variant : Variant) (cdt ft : ℚ) :
    EnemyTank :=
  let speed : ℚ := match variant with | .basic => 84 | .fast => 112 | .heavy => 72
  let fire_delay : ℚ :=
    match variant with | .basic => 0.55 | .fast => 0.42 | .heavy => 0.65
  let bullet_speed : ℚ :=
    match variant with | .basic => 280 | .fast => 320 | .heavy => 300
  { Tank.make tid x y speed fire_delay bullet_speed false with
    health := if variant = .heavy then 2 else 1
    invulnerable_timer := 1
    variant := variant
    score_value := SCORE_VALUES variant
    change_dir_timer := cdt
    fire_timer := ft }

/-- `PlayerTank.update_respawn`: while dead, count the respawn timer down;
once it reaches zero, complete the respawn only if the spawn rect is free of
terrain and enemies, otherwise re-arm a short retry delay. -/
def PlayerTank.update_respawn (p : PlayerTank) (dt : ℚ) (lvl : Level)
    (enemies : List EnemyTank) : PlayerTank :=
  if !p.dead then p
  else
    let p := { p with respawn_timer := max 0 (p.respawn_timer - dt) }
    if p.respawn_timer > 0 then p
    else
      let spawn_rect : Rect :=
        ⟨py_int p.spawn_x, py_int p.spawn_y, p.rect.width, p.rect.height⟩
      if lvl.is_rect_blocked spawn_rect then { p with respawn_timer := 0.25 }
      else if enemies.any (fun enemy => spawn_rect.colliderect enemy.rect) then
        { p with respawn_timer := 0.25 }
      else
        { p with
            pos_x := p.spawn_x, pos_y := p.spawn_y
            rect := ⟨py_int p.spawn_x, py_int p.spawn_y, p.rect.width, p.rect.height⟩
            direction := .up
            dead := false
            active := true
            invulnerable_timer := 2.5
            cooldown_timer := 0
            active_bullets := 0 }

inductive GameState
  | menu
  | playing
  | game_over
  | victory
deriving DecidableEq, Repr

inductive GameOverReason
  | player
  | base
deriving DecidableEq, Repr

/-- The parts of the `Game` object touched by the simulation claims.
Presentation state (fonts, surfaces, sounds, impact effects, bonus pickups
and HUD messages) is omitted. -/
structure Game where
  state : GameState
  game_over_reason : Option GameOverReason
  stage : ℤ
  score : ℕ
  level : Level
  player : PlayerTank
  enemies : List EnemyTank
  bullets : List Bullet
  remaining_enemies : ℤ
  enemy_spawn_timer : ℚ

/-- `bullet.owner.on_bullet_destroyed()`: the owner back-reference is an
object identity; id `0` is the player object, a positive id is the enemy
object carrying that `tid`.  Mutating an enemy object that has already left
`enemies` has no observable effect, which the map reproduces. -/
def Game.notify_owner (g : Game) (owner : ℕ) : Game :=
  if owner = 0 then
    { g with player := { g.player with toTank := g.player.toTank.on_bullet_destroyed } }
  else
    { g with
        enemies := g.enemies.map fun e =>
          if e.tid = owner then { e with toTank := e.toTank.on_bullet_destroyed }
          else e }

/-- `Game.remove_bullet`. -/
def Game.remove_bullet (g : Game) (b : Bullet) : Game :=
  if b ∈ g.bullets then
    Game.notify_owner { g with bullets := g.bullets.erase b } b.owner
  else g

/-- `Game.on_player_hit`. -/
def Game.on_player_hit (g : Game) : Game :=
  if g.player.invulnerable_timer > 0 ∨ !g.player.active then g
  else
    let p := { g.player with lives := g.player.lives - 1 }
    if p.lives ≤ 0 then
      { g with
          player := { p with lives := 0 }
          state := .game_over
          game_over_reason := some .player }
    else { g with player := p.start_respawn }

def play_rect : Rect := ⟨0, 0, PLAY_AREA_WIDTH, PLAY_AREA_HEIGHT⟩

/-- One iteration of the first loop of `Game.update_bullets` for bullet `b`:
advance the bullet, then resolve leaving the play area, tile collision (with
a possible base game-over) and tank collision.  Returns the updated game
(without the bullet list, which the caller threads) and the advanced bullet
when it survives; `none` means the bullet was removed, with its owner
notified — during this loop the current bullet is always a member of the
live list, so `remove_bullet` reduces to removal plus owner notification. -/
def Game.process_bullet (g : Game) (dt : ℚ) (b0 : Bullet) : Game × Option Bullet :=
  let b := b0.update dt
  if !play_rect.contains_rect b.rect then (g.notify_owner b.owner, none)
  else
    let lc := g.level.handle_bullet_collision b.rect
    let g := { g with level := lc.1 }
    match lc.2 with
    | some collision =>
      let g := g.notify_owner b.owner
      if collision = .base ∧ g.state = .playing then
        ({ g with state := .game_over, game_over_reason := some .base }, none)
      else (g, none)
    | none =>
      if b.friendly then
        match g.enemies.find? (fun e =>
            !(e.invulnerable_timer > 0) && b.rect.colliderect e.rect) with
        | some target =>
          let hit := target.toTank.take_damage
          let target2 := { target with toTank := hit.1 }
          let g :=
            if hit.2 then
              { g with
                  enemies := g.enemies.erase target
                  score := g.score + target.score_value }
            else { g with enemies := g.enemies.replace target target2 }
          (g.notify_owner b.owner, none)
        | none => (g, some b)
      else
        if g.player.active ∧ g.player.invulnerable_timer ≤ 0 ∧
            b.rect.colliderect g.player.rect then
          ((g.notify_owner b.owner).on_player_hit, none)
        else (g, some b)

/-- The first loop of `Game.update_bullets`, iterated over the snapshot
`list(self.bullets)`; survivors are appended to `g.bullets` in order (the
live list during the pass consists of the processed survivors followed by
the not yet processed bullets, and no step reads other bullets). -/
def Game.bullet_pass (dt : ℚ) : Game → List Bullet → Game
  | g, [] => g
  | g, b :: rest =>
    match g.process_bullet dt b with
    | (g2, none) => Game.bullet_pass dt g2 rest
    | (g2, some b2) =>
      Game.bullet_pass dt { g2 with bullets := g2.bullets ++ [b2] } rest

/-- One comparison of the bullet-vs-bullet scan: when `a` and `b` belong to
opposite factions and overlap, each of them is appended to the removal list
unless it is already present. -/
def annihilation_step (a : Bullet) (acc : List Bullet) (b : Bullet) :
    List Bullet :=
  if a.friendly = b.friendly then acc
  else if a.rect.colliderect b.rect then
    let acc2 := if a ∈ acc then acc else acc ++ [a]
    if b ∈ acc2 then acc2 else acc2 ++ [b]
  else acc

/-- The inner loop of the bullet-vs-bullet scan: pair `a` against every later
bullet. -/
def annihilation_inner (a : Bullet) (acc : List Bullet) (rest : List Bullet) :
    List Bullet :=
  rest.foldl (annihilation_step a) acc

/-- The pairwise bullet-vs-bullet scan of `Game.update_bullets`, producing
`to_remove` in first-appended order. -/
def annihilation_scan (acc : List Bullet) : List Bullet → List Bullet
  | [] => acc
  | a :: rest => annihilation_scan (annihilation_inner a acc rest) rest

/-- `Game.update_bullets`: the per-bullet pass over all bullets first, then
the mutual annihilation pass over the survivors. -/
def Game.update_bullets (g : Game) (dt : ℚ) : Game :=
  let g1 := Game.bullet_pass dt { g with bullets := [] } g.bullets
  let to_remove := annihilation_scan [] g1.bullets
  to_remove.foldl Game.remove_bullet g1

/-- The fixed candidate spawn cells of `Game.spawn_enemy`. -/
def SPAWN_POINTS : List (ℤ × ℤ) :=
  [(TILE_SIZE, TILE_SIZE), (TILE_SIZE * 12, TILE_SIZE), (TILE_SIZE * 23, TILE_SIZE)]

/-- Whether a candidate spawn rect is unusable: blocked by terrain, or
overlapping the active player, or overlapping an existing enemy. -/
def Game.spawn_blocked (g : Game) (rect : Rect) : Bool :=
  g.level.is_rect_blocked rect ||
    (g.player.active && rect.colliderect g.player.rect) ||
    g.enemies.any fun enemy => rect.colliderect enemy.rect

/-- The candidate loop of `Game.spawn_enemy` over the shuffled spawn cells. -/
def Game.spawn_loop (g : Game) (variant : Variant) (cdt ft : ℚ) (tid : ℕ) :
    List (ℤ × ℤ) → Game × Bool
  | [] => (g, false)
  | spawn :: rest =>
    let rect : Rect := ⟨spawn.1, spawn.2, TILE_SIZE, TILE_SIZE⟩
    if g.spawn_blocked rect then g.spawn_loop variant cdt ft tid rest
    else
      ({ g with
          enemies := g.enemies ++
            [EnemyTank.make tid (spawn.1 : ℚ) (spawn.2 : ℚ) variant cdt ft]
          remaining_enemies := g.remaining_enemies - 1 },
        true)

/-- `Game.spawn_enemy`.  The random draws are passed in: `order` is the
shuffled copy of the candidate cells, `variant` the weighted variant choice,
`cdt`/`ft` the new enemy's random timers, and `tid` the identity of the new
enemy object. -/
def Game.spawn_enemy (g : Game) (order : List (ℤ × ℤ)) (variant : Variant)
    (cdt ft : ℚ) (tid : ℕ) : Game × Bool :=
  if g.remaining_enemies ≤ 0 then (g, false)
  else if MAX_ACTIVE_ENEMIES ≤ g.enemies.length then (g, false)
  else g.spawn_loop variant cdt ft tid order

/-- The core operations on the player tank that the bullet-cap claims range
over: timer ticks, power-up ticks, power-up application, fire requests and
bullet-destruction notifications. -/
inductive PlayerOp
  | update_timers (dt : ℚ)
  | update_powerups (dt : ℚ)
  | apply_bonus (b : BonusType)
  | fire_req (bid : ℕ)
  | bullet_destroyed
deriving DecidableEq, Repr

/-- Whether an operation is a power-up expiry tick (`update_powerups`). -/
def PlayerOp.is_powerup_tick : PlayerOp → Bool
  | .update_powerups _ => true
  | _ => false

def PlayerTank.run_op (p : PlayerTank) : PlayerOp → PlayerTank
  | .update_timers dt => { p with toTank := p.toTank.update_timers dt }
  | .update_powerups dt => p.update_powerups dt
  | .apply_bonus b => p.apply_bonus b
  | .fire_req bid => { p with toTank := (p.toTank.fire bid).1 }
  | .bullet_destroyed => { p with toTank := p.toTank.on_bullet_destroyed }

def PlayerTank.run_ops (p : PlayerTank) (ops : List PlayerOp) : PlayerTank :=
  ops.foldl PlayerTank.run_op p

/-- The bullet-cap invariant of the spec: a tank never owns more live bullets
than its cap allows.  The cap of the player is 1 or the rapid-fire value 2,
which the second conjunct records. -/
def caps_inv (p : PlayerTank) : Prop :=
  p.active_bullets ≤ p.max_bullets ∧ p.max_bullets ≤ 2

/-- A covered tile that the bullet-collision scan does not skip: not forest,
not ice, and bullet-blocking. -/
def relevant_tile (t : TileType) : Bool :=
  !(decide (t = .forest)) && !(decide (t = .ice)) &&
    (TILE_DEFINITIONS t).bullet_block

/-- Resolution of the first non-skipped tile of the bullet-collision scan. -/
def resolve_tile (lvl : Level) (c : ℤ × ℤ) (t : TileType) :
    Level × Option CollisionResult :=
  if t = .base ∧ lvl.base_alive then
    ({ lvl with
        base_alive := false,
        tiles := fun c2 =>
          if c2 ∈ lvl.base_tiles then some .base_ruin else lvl.tiles c2 },
      some .base)
  else if (TILE_DEFINITIONS t).destructible then
    ({ lvl with tiles := fun c2 => if c2 = c then none else lvl.tiles c2 },
      some .brick)
  else (lvl, some .block)

/-- The `active_bullets` attribute of the tank object with identity `o`:
the player object for `0`, otherwise the enemy object carrying that id
(0 if no such enemy is live). -/
def Game.owner_count (g : Game) (o : ℕ) : ℕ :=
  if o = 0 then g.player.active_bullets
  else ((g.enemies.find? fun e => e.tid == o).map fun e => e.active_bullets).getD 0

/-- The acceptance guard of each axis move in `_try_axis_move`: the candidate
rect is neither blocked by the grid nor overlapping an active other tank. -/
def move_free (lvl : Level) (others : List OtherTank) (r : Rect) : Bool :=
  !lvl.is_rect_blocked r && !Tank.collides_with_others r others

/-! Concrete fixtures used by the witnesses. -/

def test_tiles : ℤ × ℤ → Option TileType := fun c =>
  if c = (2, 1) then some .brick
  else if c = (3, 1) then some .steel
  else if c = (1, 3) then some .forest
  else if c = (5, 5) then some .base
  else if c = (6, 5) then some .base
  else if c = (4, 20) then some .water
  else none

def test_level : Level :=
  { width := GRID_SIZE, height := GRID_SIZE, tiles := test_tiles
    base_tiles := [(5, 5), (6, 5)], base_alive := true }

def ruined_tiles : ℤ × ℤ → Option TileType := fun c =>
  if c = (5, 5) then some .base_ruin
  else if c = (6, 5) then some .base_ruin
  else none

def ruined_level : Level :=
  { width := GRID_SIZE, height := GRID_SIZE, tiles := ruined_tiles
    base_tiles := [(5, 5), (6, 5)], base_alive := false }

def test_player : PlayerTank := PlayerTank.make (TILE_SIZE * 12 : ℤ) (TILE_SIZE * 23 : ℤ)

def c4_level : Level :=
  { width := GRID_SIZE, height := GRID_SIZE
    tiles := fun c => if c = (3, 3) then some .steel else none
    base_tiles := [], base_alive := true }

def c4_tank : Tank := Tank.make 5 48 48 96 0.35 360 true

def c9_enemy : EnemyTank := EnemyTank.make 3 48 288 .basic 2 2

def c9_bullet : Bullet :=
  { bid := 11, pos_x := 60, pos_y := 300, direction := .up, speed := 360
    owner := 0, friendly := true
    rect := Rect.with_center (py_round 60) (py_round 300) BULLET_SIZE BULLET_SIZE }

def c9_game : Game :=
  { state := .playing, game_over_reason := none, stage := 1, score := 0
    level := test_level, player := test_player, enemies := [c9_enemy]
    bullets := [c9_bullet], remaining_enemies := 5, enemy_spawn_timer := 0 }

def c10_bullet : Bullet :=
  { bid := 12, pos_x := 126, pos_y := 126, direction := .up, speed := 360
    owner := 0, friendly := true
    rect := Rect.with_center (py_round 126) (py_round 126) BULLET_SIZE BULLET_SIZE }

def c10_game : Game :=
  { c9_game with enemies := [], bullets := [c10_bullet] }

def c2_a : Bullet :=
  { bid := 21, pos_x := 300, pos_y := 300, direction := .right, speed := 360
    owner := 0, friendly := true
    rect := Rect.with_center (py_round 300) (py_round 300) BULLET_SIZE BULLET_SIZE }

def c2_b : Bullet :=
  { bid := 22, pos_x := 303, pos_y := 300, direction := .left, speed := 280
    owner := 7, friendly := false
    rect := Rect.with_center (py_round 303) (py_round 300) BULLET_SIZE BULLET_SIZE }

def c2_enemy : EnemyTank :=
  let e := EnemyTank.make 7 24 24 .basic 2 2
  { e with toTank := { e.toTank with active_bullets := 1 } }

def c2_game : Game :=
  { state := .playing, game_over_reason := none, stage := 1, score := 0
    level := test_level
    player := { test_player with toTank := { test_player.toTank with active_bullets := 1 } }
    enemies := [c2_enemy]
    bullets := [c2_a, c2_b], remaining_enemies := 5, enemy_spawn_timer := 0 }

/-- The operation sequence of the C1 counterexample: grab rapid fire, get two
bullets into the air, let the power-up expire while both are still flying. -/
def c1_ops : List PlayerOp :=
  [.apply_bonus .rapid_fire, .fire_req 1, .update_timers 1, .fire_req 2,
    .update_powerups 8]

def c6_player : PlayerTank :=
  { test_player with dead := true, active := false, respawn_timer := 5 }

def c6_done_player : PlayerTank :=
  { test_player with dead := true, active := false, respawn_timer := 0 }

def c7_game : Game :=
  { state := .playing, game_over_reason := none, stage := 1, score := 0
    level := test_level, player := test_player
    enemies := [EnemyTank.make 1 24 24 .basic 2 2,
      EnemyTank.make 2 288 24 .fast 2 2,
      EnemyTank.make 3 552 24 .heavy 2 2]
    bullets := [], remaining_enemies := 2, enemy_spawn_timer := 0 }

/-! ### Lemmas about the tile scan -/

lemma int_range_pairwise (a b : ℤ) : (int_range a b).Pairwise (· < ·) := by
  refine (List.pairwise_lt_range _).map (fun i : ℕ => a + (i : ℤ)) ?_
  intro i j h
  show a + (i : ℤ) < a + (j : ℤ)
  omega

lemma mem_int_range {x a b : ℤ} : x ∈ int_range a b ↔ a ≤ x ∧ x < b := by
  simp only [int_range, List.mem_map, List.mem_range]
  constructor
  · rintro ⟨i, hi, rfl⟩
    omega
  · intro h
    exact ⟨(x - a).toNat, by omega, by omega⟩

/-- The scan order of `iter_tiles` is strictly row-major: later entries have a
strictly larger row, or the same row and a strictly larger column. -/
lemma iter_tiles_pairwise (lvl : Level) (rect : Rect) :
    (lvl.iter_tiles rect).Pairwise
      (fun A B => A.1.2 < B.1.2 ∨ (A.1.2 = B.1.2 ∧ A.1.1 < B.1.1)) := by
  unfold Level.iter_tiles
  rw [List.pairwise_flatMap]
  constructor
  · intro gy _
    rw [List.pairwise_filterMap]
    refine (int_range_pairwise _ _).imp ?_
    intro gx1 gx2 hlt x hx y hy
    cases h1 : lvl.tiles (gx1, gy) with
    | none => simp [h1] at hx
    | some t1 =>
      cases h2 : lvl.tiles (gx2, gy) with
      | none => simp [h2] at hy
      | some t2 =>
        simp only [h1, h2, Option.map_some', Option.mem_def, Option.some_inj] at hx hy
        subst hx; subst hy
        exact Or.inr ⟨rfl, hlt⟩
  · refine (int_range_pairwise _ _).imp ?_
    intro gy1 gy2 hlt x hx y hy
    rw [List.mem_filterMap] at hx hy
    obtain ⟨gx1, -, hx⟩ := hx
    obtain ⟨gx2, -, hy⟩ := hy
    have hx2 : x.1.2 = gy1 := by
      cases h1 : lvl.tiles (gx1, gy1) <;> rw [h1] at hx
      · exact absurd hx (by simp)
      · simp only [Option.map_some', Option.some_inj] at hx
        rw [← hx]
    have hy2 : y.1.2 = gy2 := by
      cases h2 : lvl.tiles (gx2, gy2) <;> rw [h2] at hy
      · exact absurd hy (by simp)
      · simp only [Option.map_some', Option.some_inj] at hy
        rw [← hy]
    exact Or.inl (by rw [hx2, hy2]; exact hlt)

/-- Membership in the scan list: exactly the clamped covered cells that carry
a tile. -/
lemma mem_iter_tiles {lvl : Level} {rect : Rect} {c : ℤ × ℤ} {t : TileType} :
    (c, t) ∈ lvl.iter_tiles rect ↔
      (max (rect.left.fdiv TILE_SIZE) 0 ≤ c.1 ∧
        c.1 ≤ min ((rect.right - 1).fdiv TILE_SIZE) (lvl.width - 1) ∧
        max (rect.top.fdiv TILE_SIZE) 0 ≤ c.2 ∧
        c.2 ≤ min ((rect.bottom - 1).fdiv TILE_SIZE) (lvl.height - 1) ∧
        lvl.tiles c = some t) := by
  obtain ⟨cx, cy⟩ := c
  simp only [Level.iter_tiles, List.mem_flatMap, List.mem_filterMap, mem_int_range]
  constructor
  · rintro ⟨gy, hgy, gx, hgx, hmap⟩
    cases h1 : lvl.tiles (gx, gy) <;> rw [h1] at hmap
    · exact absurd hmap (by simp)
    · simp only [Option.map_some', Option.some_inj, Prod.mk.injEq] at hmap
      obtain ⟨⟨rfl, rfl⟩, rfl⟩ := hmap
      exact ⟨hgx.1, by omega, hgy.1, by omega, h1⟩
  · rintro ⟨h1, h2, h3, h4, h5⟩
    exact ⟨cy, ⟨h3, by omega⟩, cx, ⟨h1, by omega⟩, by rw [h5]; rfl⟩

/-- `handle_aux` resolves exactly the first non-skipped tile of its input. -/
lemma handle_aux_eq_find (lvl : Level) (l : List ((ℤ × ℤ) × TileType)) :
    lvl.handle_aux l =
      match l.find? (fun ct => relevant_tile ct.2) with
      | none => (lvl, none)
      | some (c, t) => resolve_tile lvl c t := by
  induction l with
  | nil => rfl
  | cons ct rest ih =>
    obtain ⟨c, t⟩ := ct
    by_cases hf : t = .forest
    · rw [List.find?_cons_of_neg _ (by simp [relevant_tile, hf])]
      rw [show lvl.handle_aux ((c, t) :: rest) = lvl.handle_aux rest by
        simp [Level.handle_aux, hf]]
      exact ih
    · by_cases hi : t = .ice
      · rw [List.find?_cons_of_neg _ (by simp [relevant_tile, hi])]
        rw [show lvl.handle_aux ((c, t) :: rest) = lvl.handle_aux rest by
          simp [Level.handle_aux, hf, hi]]
        exact ih
      · by_cases hb : (TILE_DEFINITIONS t).bullet_block = false
        · rw [List.find?_cons_of_neg _ (by simp [relevant_tile, hf, hi, hb])]
          rw [show lvl.handle_aux ((c, t) :: rest) = lvl.handle_aux rest by
            simp [Level.handle_aux, hf, hi, hb]]
          exact ih
        · rw [List.find?_cons_of_pos _ (by
            simp only [relevant_tile, Bool.and_eq_true, Bool.not_eq_true']
            exact ⟨⟨by simpa using hf, by simpa using hi⟩, by simpa using hb⟩)]
          simp only [Level.handle_aux, hf, hi, hb, resolve_tile]
          simp [Bool.not_eq_true] at hb
          simp [hf, hi, hb]

/-- If the scan reports no collision the level is returned unchanged. -/
lemma handle_aux_none {lvl : Level} {l : List ((ℤ × ℤ) × TileType)}
    (h : (lvl.handle_aux l).2 = none) : lvl.handle_aux l = (lvl, none) := by
  rw [handle_aux_eq_find] at h ⊢
  cases hfind : l.find? (fun ct => relevant_tile ct.2) with
  | none => rfl
  | some ct =>
    obtain ⟨c, t⟩ := ct
    rw [hfind] at h
    simp only [resolve_tile] at h
    split_ifs at h

/-- A "base" outcome presupposes a live base and leaves the base destroyed,
with every base tile turned into a ruin. -/
lemma handle_aux_base {lvl : Level} {l : List ((ℤ × ℤ) × TileType)}
    (h : (lvl.handle_aux l).2 = some .base) :
    lvl.base_alive = true ∧ (lvl.handle_aux l).1.base_alive = false ∧
      ∀ c ∈ lvl.base_tiles, (lvl.handle_aux l).1.tiles c = some .base_ruin := by
  rw [handle_aux_eq_find] at h ⊢
  cases hfind : l.find? (fun ct => relevant_tile ct.2) with
  | none => rw [hfind] at h; simp at h
  | some ct =>
    obtain ⟨c, t⟩ := ct
    rw [hfind] at h
    simp only [resolve_tile] at h ⊢
    split_ifs at h ⊢ with h1 h2
    · exact ⟨h1.2, rfl, fun c2 hc2 => by simp [hc2]⟩
    · simp at h
    · simp at h

/-- C3: `handle_bullet_collision(rect)` resolves at most one tile per call.
It scans the covered cells row-major (top to bottom, left to right), skipping
forest, ice, and non-bullet-blocking tiles; the first blocking tile decides:
a live base tile yields the "base" signal and marks the base destroyed, a
destructible tile yields "brick" and removes exactly that tile, any other
blocking tile yields "block" and leaves the level unchanged, and if no
covered tile blocks bullets there is no collision and no change. -/
theorem claim_C3_bullet_collision_scan (lvl : Level) (rect : Rect) :
    ((lvl.iter_tiles rect).Pairwise
      (fun A B => A.1.2 < B.1.2 ∨ (A.1.2 = B.1.2 ∧ A.1.1 < B.1.1))) ∧
    (∀ c t, ((c, t) ∈ lvl.iter_tiles rect ↔
      (max (rect.left.fdiv TILE_SIZE) 0 ≤ c.1 ∧
        c.1 ≤ min ((rect.right - 1).fdiv TILE_SIZE) (lvl.width - 1) ∧
        max (rect.top.fdiv TILE_SIZE) 0 ≤ c.2 ∧
        c.2 ≤ min ((rect.bottom - 1).fdiv TILE_SIZE) (lvl.height - 1) ∧
        lvl.tiles c = some t))) ∧
    ((lvl.iter_tiles rect).find? (fun ct => relevant_tile ct.2) = none →
      lvl.handle_bullet_collision rect = (lvl, none)) ∧
    (∀ c, (lvl.iter_tiles rect).find? (fun ct => relevant_tile ct.2) =
        some (c, .base) →
      lvl.base_alive = true →
      (lvl.handle_bullet_collision rect).2 = some .base ∧
      (lvl.handle_bullet_collision rect).1.base_alive = false) ∧
    (∀ c t, (lvl.iter_tiles rect).find? (fun ct => relevant_tile ct.2) =
        some (c, t) →
      ¬(t = .base ∧ lvl.base_alive = true) →
      (TILE_DEFINITIONS t).destructible = true →
      lvl.handle_bullet_collision rect =
        ({ lvl with tiles := fun c2 => if c2 = c then none else lvl.tiles c2 },
          some .brick)) ∧
    (∀ c t, (lvl.iter_tiles rect).find? (fun ct => relevant_tile ct.2) =
        some (c, t) →
      ¬(t = .base ∧ lvl.base_alive = true) →
      (TILE_DEFINITIONS t).destructible = false →
      lvl.handle_bullet_collision rect = (lvl, some .block)) := by
  refine ⟨iter_tiles_pairwise lvl rect, fun c t => mem_iter_tiles, ?_, ?_, ?_, ?_⟩
  · intro h
    unfold Level.handle_bullet_collision
    rw [handle_aux_eq_find, h]
  · intro c hfind halive
    unfold Level.handle_bullet_collision
    rw [handle_aux_eq_find, hfind]
    simp only [resolve_tile]
    rw [if_pos (by simp [halive])]
    exact ⟨rfl, rfl⟩
  · intro c t hfind hnb hdest
    unfold Level.handle_bullet_collision
    rw [handle_aux_eq_find, hfind]
    simp only [resolve_tile]
    rw [if_neg (by simpa using hnb), if_pos hdest]
  · intro c t hfind hnb hdest
    unfold Level.handle_bullet_collision
    rw [handle_aux_eq_find, hfind]
    simp only [resolve_tile]
    rw [if_neg (by simpa using hnb), if_neg (by simp [hdest])]

/-- Witness for C3 at a concrete level and rect: the bullet rect covers the
brick cell (2, 1), the scan finds it first, and the call returns the "brick"
signal. -/
theorem claim_C3_witness :
    ((test_level.iter_tiles ⟨50, 30, 6, 6⟩).find? (fun ct => relevant_tile ct.2) =
      some ((2, 1), .brick)) ∧
    (test_level.handle_bullet_collision ⟨50, 30, 6, 6⟩).2 = some .brick := by
  have h := (claim_C3_bullet_collision_scan test_level ⟨50, 30, 6, 6⟩).2.2.2.2.1
    (2, 1) .brick (by decide) (by decide) (by decide)
  exact ⟨by decide, by rw [h]⟩

/-! ### Lemmas about the per-bullet pass -/

lemma handle_collision_base {lvl : Level} {rect : Rect}
    (h : (lvl.handle_bullet_collision rect).2 = some .base) :
    lvl.base_alive = true ∧ (lvl.handle_bullet_collision rect).1.base_alive = false ∧
      ∀ c ∈ lvl.base_tiles,
        (lvl.handle_bullet_collision rect).1.tiles c = some .base_ruin :=
  handle_aux_base h

lemma handle_collision_none {lvl : Level} {rect : Rect}
    (h : (lvl.handle_bullet_collision rect).2 = none) :
    lvl.handle_bullet_collision rect = (lvl, none) :=
  handle_aux_none h

@[simp] lemma notify_owner_state (g : Game) (o : ℕ) :
    (g.notify_owner o).state = g.state := by
  unfold Game.notify_owner; split <;> rfl

@[simp] lemma notify_owner_reason (g : Game) (o : ℕ) :
    (g.notify_owner o).game_over_reason = g.game_over_reason := by
  unfold Game.notify_owner; split <;> rfl

@[simp] lemma notify_owner_level (g : Game) (o : ℕ) :
    (g.notify_owner o).level = g.level := by
  unfold Game.notify_owner; split <;> rfl

@[simp] lemma notify_owner_bullets (g : Game) (o : ℕ) :
    (g.notify_owner o).bullets = g.bullets := by
  unfold Game.notify_owner; split <;> rfl

@[simp] lemma notify_owner_score (g : Game) (o : ℕ) :
    (g.notify_owner o).score = g.score := by
  unfold Game.notify_owner; split <;> rfl

@[simp] lemma on_player_hit_reason (g : Game) :
    (g.on_player_hit).game_over_reason = g.game_over_reason ∨
      (g.on_player_hit).game_over_reason = some .player := by
  unfold Game.on_player_hit
  split
  · simp
  · dsimp only
    split <;> simp

/-- The only way `process_bullet` can set the game-over reason to "base" is a
live base; otherwise the reason stays or becomes "player". -/
lemma process_bullet_reason (g : Game) (dt : ℚ) (b : Bullet) :
    (g.process_bullet dt b).1.game_over_reason = g.game_over_reason ∨
      ((g.process_bullet dt b).1.game_over_reason = some .base ∧
        g.level.base_alive = true) ∨
      (g.process_bullet dt b).1.game_over_reason = some .player := by
  unfold Game.process_bullet
  dsimp only
  split
  · simp
  · split
    · rename_i collision heq
      split_ifs with hc
      · refine Or.inr (Or.inl ⟨rfl, ?_⟩)
        have h2 : (g.level.handle_bullet_collision (b.update dt).rect).2 =
            some .base := by rw [heq, hc.1]
        exact (handle_collision_base h2).1
      · simp
    · split
      · split
        · dsimp only
          split <;> simp
        · simp
      · split
        · unfold Game.on_player_hit
          split
          · simp
          · dsimp only
            split <;> simp
        · simp

/-- C5: base destruction is idempotent and irreversible within a stage.
Once the base is down, no bullet impact can produce a second "base" signal;
an impact whose first blocking tile is an already-ruined base tile returns a
plain "block" and leaves the grid and `base_alive` untouched; the first
"base" outcome clears `base_alive` and turns every base tile into a ruin;
and at game level a frame with a dead base can never (re-)set the game-over
reason to "base". -/
theorem claim_C5_base_destruction_idempotent :
    (∀ (lvl : Level) (rect : Rect), lvl.base_alive = false →
      (lvl.handle_bullet_collision rect).2 ≠ some .base) ∧
    (∀ (lvl : Level) (rect : Rect) (c : ℤ × ℤ),
      (lvl.iter_tiles rect).find? (fun ct => relevant_tile ct.2) =
        some (c, .base_ruin) →
      lvl.handle_bullet_collision rect = (lvl, some .block)) ∧
    (∀ (lvl : Level) (rect : Rect),
      (lvl.handle_bullet_collision rect).2 = some .base →
      (lvl.handle_bullet_collision rect).1.base_alive = false ∧
        ∀ c ∈ lvl.base_tiles,
          (lvl.handle_bullet_collision rect).1.tiles c = some .base_ruin) ∧
    (∀ (g : Game) (dt : ℚ) (b : Bullet), g.level.base_alive = false →
      (g.process_bullet dt b).1.game_over_reason = some .base →
      g.game_over_reason = some .base) := by
  refine ⟨?_, ?_, ?_, ?_⟩
  · intro lvl rect h hcon
    rw [(handle_collision_base hcon).1] at h
    cases h
  · intro lvl rect c hfind
    unfold Level.handle_bullet_collision
    rw [handle_aux_eq_find, hfind]
    simp [resolve_tile, TILE_DEFINITIONS]
  · intro lvl rect h
    exact ⟨(handle_collision_base h).2.1, (handle_collision_base h).2.2⟩
  · intro g dt b hdead hreason
    rcases process_bullet_reason g dt b with h | h | h
    · rw [← h, hreason]
    · rw [h.2] at hdead; cases hdead
    · rw [h] at hreason
      cases hreason

/-- Witness for C5 at a concrete ruined level: the impact rect covers the
ruined base tile (5, 5); the call returns the plain "block" signal, the level
is unchanged, and no "base" signal is produced. -/
theorem claim_C5_witness :
    (ruined_level.base_alive = false) ∧
    ((ruined_level.iter_tiles ⟨121, 121, 6, 6⟩).find?
        (fun ct => relevant_tile ct.2) = some ((5, 5), .base_ruin)) ∧
    ruined_level.handle_bullet_collision ⟨121, 121, 6, 6⟩ =
      (ruined_level, some .block) ∧
    (ruined_level.handle_bullet_collision ⟨121, 121, 6, 6⟩).2 ≠ some .base := by
  refine ⟨rfl, by decide, ?_, ?_⟩
  · exact claim_C5_base_destruction_idempotent.2.1 ruined_level ⟨121, 121, 6, 6⟩
      (5, 5) (by decide)
  · exact claim_C5_base_destruction_idempotent.1 ruined_level ⟨121, 121, 6, 6⟩ rfl

/-- C10: bullet-versus-tile resolution never inspects the bullet's faction:
any bullet — the player's own included, since no hypothesis mentions
`b.friendly` — whose advanced rect stays in the play area and whose tile
collision yields "base" while the game is playing removes the bullet, puts
the game into game-over with cause "base", and leaves the base destroyed. -/
theorem claim_C10_friendly_fire_on_base (g : Game) (dt : ℚ) (b : Bullet)
    (hcont : play_rect.contains_rect (b.update dt).rect = true)
    (hbase : (g.level.handle_bullet_collision (b.update dt).rect).2 = some .base)
    (hplay : g.state = .playing) :
    (g.process_bullet dt b).2 = none ∧
    (g.process_bullet dt b).1.state = .game_over ∧
    (g.process_bullet dt b).1.game_over_reason = some .base ∧
    (g.process_bullet dt b).1.level.base_alive = false := by
  unfold Game.process_bullet
  dsimp only
  rw [if_neg (by simp [hcont])]
  rw [hbase]
  dsimp only
  rw [if_pos (by simp [hplay])]
  refine ⟨rfl, rfl, rfl, ?_⟩
  simp only [notify_owner_level]
  exact (handle_collision_base hbase).2.1

/-- Witness for C10: a player-owned bullet sitting on the live base tile of
the concrete level ends the game with cause "base". -/
theorem claim_C10_witness :
    c10_bullet.friendly = true ∧
    (c10_game.process_bullet 0 c10_bullet).1.state = .game_over ∧
    (c10_game.process_bullet 0 c10_bullet).1.game_over_reason = some .base ∧
    (c10_game.process_bullet 0 c10_bullet).1.level.base_alive = false := by
  have h := claim_C10_friendly_fire_on_base c10_game 0 c10_bullet
    (by with_unfolding_all decide) (by with_unfolding_all decide) rfl
  exact ⟨rfl, h.2.1, h.2.2.1, h.2.2.2⟩

/-- C9: spawn invulnerability makes an enemy transparent to bullets.  A
friendly bullet that stays in bounds, hits no tile, and overlaps only
enemies whose invulnerability timer is still positive is not removed and
damages nothing: the whole game state is returned unchanged and the bullet
keeps flying. -/
theorem claim_C9_invulnerable_enemies_transparent (g : Game) (dt : ℚ) (b : Bullet)
    (hfriendly : b.friendly = true)
    (hcont : play_rect.contains_rect (b.update dt).rect = true)
    (htile : (g.level.handle_bullet_collision (b.update dt).rect).2 = none)
    (hinv : ∀ e ∈ g.enemies, (b.update dt).rect.colliderect e.rect = true →
      e.invulnerable_timer > 0) :
    g.process_bullet dt b = (g, some (b.update dt)) := by
  unfold Game.process_bullet
  dsimp only
  rw [if_neg (by simp [hcont])]
  rw [htile]
  dsimp only
  rw [if_pos (show (b.update dt).friendly = true by
    simpa [Bullet.update] using hfriendly)]
  have hfind : List.find?
      (fun e => !decide (e.invulnerable_timer > 0) &&
        (b.update dt).rect.colliderect e.rect) g.enemies = none := by
    rw [List.find?_eq_none]
    intro e he
    by_cases hc : (b.update dt).rect.colliderect e.rect = true
    · have hgt := hinv e he hc
      simp [hgt]
    · simp [hc]
  rw [hfind]
  have hlvl : (g.level.handle_bullet_collision (b.update dt).rect).1 = g.level := by
    rw [handle_collision_none htile]
  rw [hlvl]

/-- Witness for C9: a friendly bullet overlapping exactly one enemy, whose
spawn invulnerability is still ticking, passes through unchanged. -/
theorem claim_C9_witness :
    ((c9_bullet.update 0).rect.colliderect c9_enemy.rect = true ∧
      c9_enemy.invulnerable_timer > 0) ∧
    c9_game.process_bullet 0 c9_bullet = (c9_game, some (c9_bullet.update 0)) := by
  refine ⟨⟨by with_unfolding_all decide, by with_unfolding_all decide⟩, ?_⟩
  exact claim_C9_invulnerable_enemies_transparent c9_game 0 c9_bullet rfl
    (by with_unfolding_all decide) (by with_unfolding_all decide)
    (by
      intro e he hcol
      simp only [c9_game, List.mem_singleton] at he
      subst he
      with_unfolding_all decide)

/-! ### Lemmas about axis-separated movement -/

lemma axis_step_x_accept {t : Tank} {dx : ℚ} {lvl : Level}
    {others : List OtherTank} (hdx : dx ≠ 0)
    (h : move_free lvl others
      ⟨py_round (t.pos_x + dx), py_round t.pos_y,
        t.rect.width, t.rect.height⟩ = true) :
    t.axis_step_x dx lvl others = ({ t with pos_x := t.pos_x + dx }, true) := by
  unfold Tank.axis_step_x
  rw [if_pos hdx, if_pos (by simpa [move_free] using h)]

lemma axis_step_x_reject {t : Tank} {dx : ℚ} {lvl : Level}
    {others : List OtherTank} (hdx : dx ≠ 0)
    (h : move_free lvl others
      ⟨py_round (t.pos_x + dx), py_round t.pos_y,
        t.rect.width, t.rect.height⟩ = false) :
    t.axis_step_x dx lvl others = (t, false) := by
  unfold Tank.axis_step_x
  rw [if_pos hdx, if_neg (by simp only [move_free] at h; simp [h])]

lemma axis_step_x_zero (t : Tank) (lvl : Level) (others : List OtherTank) :
    t.axis_step_x 0 lvl others = (t, false) := by
  simp [Tank.axis_step_x]

lemma axis_step_y_accept {t : Tank} {dy : ℚ} {m : Bool} {lvl : Level}
    {others : List OtherTank} (hdy : dy ≠ 0)
    (h : move_free lvl others
      ⟨py_round t.pos_x, py_round (t.pos_y + dy),
        t.rect.width, t.rect.height⟩ = true) :
    t.axis_step_y dy m lvl others = ({ t with pos_y := t.pos_y + dy }, true) := by
  unfold Tank.axis_step_y
  rw [if_pos hdy, if_pos (by simpa [move_free] using h)]

lemma axis_step_y_reject {t : Tank} {dy : ℚ} {m : Bool} {lvl : Level}
    {others : List OtherTank} (hdy : dy ≠ 0)
    (h : move_free lvl others
      ⟨py_round t.pos_x, py_round (t.pos_y + dy),
        t.rect.width, t.rect.height⟩ = false) :
    t.axis_step_y dy m lvl others = (t, m) := by
  unfold Tank.axis_step_y
  rw [if_pos hdy, if_neg (by simp only [move_free] at h; simp [h])]

lemma axis_step_y_zero (t : Tank) (m : Bool) (lvl : Level)
    (others : List OtherTank) :
    t.axis_step_y 0 m lvl others = (t, m) := by
  simp [Tank.axis_step_y]

@[simp] lemma axis_step_x_pos_y (t : Tank) (dx : ℚ) (lvl : Level)
    (others : List OtherTank) :
    (t.axis_step_x dx lvl others).1.pos_y = t.pos_y := by
  unfold Tank.axis_step_x
  split
  · dsimp only
    split <;> rfl
  · rfl

@[simp] lemma axis_step_y_pos_x (t : Tank) (dy : ℚ) (m : Bool) (lvl : Level)
    (others : List OtherTank) :
    (t.axis_step_y dy m lvl others).1.pos_x = t.pos_x := by
  unfold Tank.axis_step_y
  split
  · dsimp only
    split <;> rfl
  · rfl

/-- C4: tank movement is axis-separated.  The x-delta is accepted exactly when
its candidate rect is free of grid and active tanks; the y-delta is then
tested from the (possibly already updated) x-position; the call reports a move
exactly when at least one axis moved; hence a displacement blocked on only
one axis still slides along the free axis; and `move` is the facing update
followed by this axis resolution of the direction-scaled displacement. -/
theorem claim_C4_axis_separated_movement (t : Tank) (dx dy : ℚ) (lvl : Level)
    (others : List OtherTank) :
    (dx ≠ 0 → dy ≠ 0 →
      move_free lvl others
        ⟨py_round (t.pos_x + dx), py_round t.pos_y, t.rect.width, t.rect.height⟩ = true →
      move_free lvl others
        ⟨py_round (t.pos_x + dx), py_round (t.pos_y + dy), t.rect.width, t.rect.height⟩ = false →
      (t.try_axis_move dx dy lvl others).1.pos_x = t.pos_x + dx ∧
      (t.try_axis_move dx dy lvl others).1.pos_y = t.pos_y ∧
      (t.try_axis_move dx dy lvl others).2 = true) ∧
    (dx ≠ 0 → dy ≠ 0 →
      move_free lvl others
        ⟨py_round (t.pos_x + dx), py_round t.pos_y, t.rect.width, t.rect.height⟩ = false →
      move_free lvl others
        ⟨py_round t.pos_x, py_round (t.pos_y + dy), t.rect.width, t.rect.height⟩ = true →
      (t.try_axis_move dx dy lvl others).1.pos_x = t.pos_x ∧
      (t.try_axis_move dx dy lvl others).1.pos_y = t.pos_y + dy ∧
      (t.try_axis_move dx dy lvl others).2 = true) ∧
    (dx ≠ 0 →
      ((t.try_axis_move dx dy lvl others).1.pos_x = t.pos_x + dx ↔
        move_free lvl others
          ⟨py_round (t.pos_x + dx), py_round t.pos_y, t.rect.width, t.rect.height⟩ = true)) ∧
    (dy ≠ 0 →
      ((t.try_axis_move dx dy lvl others).1.pos_y = t.pos_y + dy ↔
        move_free lvl others
          ⟨py_round ((t.try_axis_move dx dy lvl others).1.pos_x),
            py_round (t.pos_y + dy), t.rect.width, t.rect.height⟩ = true)) ∧
    ((t.try_axis_move dx dy lvl others).2 = true ↔
      ((t.try_axis_move dx dy lvl others).1.pos_x ≠ t.pos_x ∨
        (t.try_axis_move dx dy lvl others).1.pos_y ≠ t.pos_y)) ∧
    (∀ (d : Direction) (dt : ℚ),
      t.move d dt lvl others =
        Tank.try_axis_move { t with direction := d }
          ((d.vec.1 : ℚ) * t.speed * dt) ((d.vec.2 : ℚ) * t.speed * dt)
          lvl others) := by
  refine ⟨?_, ?_, ?_, ?_, ?_, fun d dt => rfl⟩
  · intro hdx hdy hx hy
    unfold Tank.try_axis_move
    rw [axis_step_x_accept hdx hx]
    dsimp only
    rw [axis_step_y_reject (t := { t with pos_x := t.pos_x + dx }) hdy
      (by simpa using hy)]
    exact ⟨rfl, rfl, rfl⟩
  · intro hdx hdy hx hy
    unfold Tank.try_axis_move
    rw [axis_step_x_reject hdx hx]
    dsimp only
    rw [axis_step_y_accept (t := t) hdy hy]
    exact ⟨rfl, rfl, rfl⟩
  · intro hdx
    unfold Tank.try_axis_move
    by_cases hx : move_free lvl others
        ⟨py_round (t.pos_x + dx), py_round t.pos_y, t.rect.width, t.rect.height⟩ = true
    · rw [axis_step_x_accept hdx hx]
      dsimp only
      simp [hx]
    · simp only [Bool.not_eq_true] at hx
      rw [axis_step_x_reject hdx hx]
      dsimp only
      simp [hx, hdx, self_eq_add_right]
  · intro hdy
    unfold Tank.try_axis_move
    by_cases hdx0 : dx = 0
    · subst hdx0
      rw [axis_step_x_zero]
      dsimp only
      by_cases hy : move_free lvl others
          ⟨py_round t.pos_x, py_round (t.pos_y + dy), t.rect.width, t.rect.height⟩ = true
      · rw [axis_step_y_accept hdy hy]
        simp [hy]
      · simp only [Bool.not_eq_true] at hy
        rw [axis_step_y_reject hdy hy]
        simp [hy, hdy, self_eq_add_right]
    · by_cases hx : move_free lvl others
          ⟨py_round (t.pos_x + dx), py_round t.pos_y, t.rect.width, t.rect.height⟩ = true
      · rw [axis_step_x_accept hdx0 hx]
        dsimp only
        by_cases hy : move_free lvl others
            ⟨py_round (t.pos_x + dx), py_round (t.pos_y + dy),
              t.rect.width, t.rect.height⟩ = true
        · rw [axis_step_y_accept (t := { t with pos_x := t.pos_x + dx }) hdy
            (by simpa using hy)]
          simp [hy]
        · simp only [Bool.not_eq_true] at hy
          rw [axis_step_y_reject (t := { t with pos_x := t.pos_x + dx }) hdy
            (by simpa using hy)]
          simp [hy, hdy, self_eq_add_right]
      · simp only [Bool.not_eq_true] at hx
        rw [axis_step_x_reject hdx0 hx]
        dsimp only
        by_cases hy : move_free lvl others
            ⟨py_round t.pos_x, py_round (t.pos_y + dy), t.rect.width, t.rect.height⟩ = true
        · rw [axis_step_y_accept hdy hy]
          simp [hy]
        · simp only [Bool.not_eq_true] at hy
          rw [axis_step_y_reject hdy hy]
          simp [hy, hdy, self_eq_add_right]
  · unfold Tank.try_axis_move
    by_cases hdx0 : dx = 0
    · subst hdx0
      rw [axis_step_x_zero]
      dsimp only
      by_cases hdy0 : dy = 0
      · subst hdy0
        rw [axis_step_y_zero]
        simp
      · by_cases hy : move_free lvl others
            ⟨py_round t.pos_x, py_round (t.pos_y + dy), t.rect.width, t.rect.height⟩ = true
        · rw [axis_step_y_accept hdy0 hy]
          simp [add_right_eq_self, hdy0]
        · simp only [Bool.not_eq_true] at hy
          rw [axis_step_y_reject hdy0 hy]
          simp
    · by_cases hx : move_free lvl others
          ⟨py_round (t.pos_x + dx), py_round t.pos_y, t.rect.width, t.rect.height⟩ = true
      · rw [axis_step_x_accept hdx0 hx]
        dsimp only
        by_cases hdy0 : dy = 0
        · subst hdy0
          rw [axis_step_y_zero]
          simp [add_right_eq_self, hdx0]
        · by_cases hy : move_free lvl others
              ⟨py_round (t.pos_x + dx), py_round (t.pos_y + dy),
                t.rect.width, t.rect.height⟩ = true
          · rw [axis_step_y_accept (t := { t with pos_x := t.pos_x + dx }) hdy0
              (by simpa using hy)]
            simp [add_right_eq_self, hdx0]
          · simp only [Bool.not_eq_true] at hy
            rw [axis_step_y_reject (t := { t with pos_x := t.pos_x + dx }) hdy0
              (by simpa using hy)]
            simp [add_right_eq_self, hdx0]
      · simp only [Bool.not_eq_true] at hx
        rw [axis_step_x_reject hdx0 hx]
        dsimp only
        by_cases hdy0 : dy = 0
        · subst hdy0
          rw [axis_step_y_zero]
          simp
        · by_cases hy : move_free lvl others
              ⟨py_round t.pos_x, py_round (t.pos_y + dy), t.rect.width, t.rect.height⟩ = true
          · rw [axis_step_y_accept hdy0 hy]
            simp [add_right_eq_self, hdy0]
          · simp only [Bool.not_eq_true] at hy
            rw [axis_step_y_reject hdy0 hy]
            simp


/-- Witness for C4: a diagonal displacement of (4, 4) from (48, 48) on a
level with a steel block at cell (3, 3): the x-move alone is free, the
combined motion is blocked, and the tank slides along the x axis. -/
theorem claim_C4_witness :
    ((4 : ℚ) ≠ 0 ∧
      move_free c4_level []
        ⟨py_round ((48 : ℚ) + 4), py_round (48 : ℚ), 24, 24⟩ = true ∧
      move_free c4_level []
        ⟨py_round ((48 : ℚ) + 4), py_round ((48 : ℚ) + 4), 24, 24⟩ = false) ∧
    (c4_tank.try_axis_move 4 4 c4_level []).1.pos_x = 48 + 4 ∧
    (c4_tank.try_axis_move 4 4 c4_level []).1.pos_y = 48 ∧
    (c4_tank.try_axis_move 4 4 c4_level []).2 = true := by
  have h := (claim_C4_axis_separated_movement c4_tank 4 4 c4_level []).1
    (by norm_num) (by norm_num)
    (by with_unfolding_all decide) (by with_unfolding_all decide)
  exact ⟨⟨by norm_num, by with_unfolding_all decide, by with_unfolding_all decide⟩,
    h.1, h.2.1, h.2.2⟩

/-! ### Lemmas about the player power-up and cap bookkeeping -/

/-- No player operation ever rewrites the stored base stats. -/
lemma run_op_base_fields (p : PlayerTank) (op : PlayerOp) :
    (p.run_op op).base_speed = p.base_speed ∧
    (p.run_op op).base_fire_delay = p.base_fire_delay ∧
    (p.run_op op).base_bullet_speed = p.base_bullet_speed := by
  cases op with
  | update_timers dt => exact ⟨rfl, rfl, rfl⟩
  | update_powerups dt =>
    unfold PlayerTank.run_op PlayerTank.update_powerups
    dsimp only
    split_ifs <;> exact ⟨rfl, rfl, rfl⟩
  | apply_bonus b =>
    cases b <;> exact ⟨rfl, rfl, rfl⟩
  | fire_req bid => exact ⟨rfl, rfl, rfl⟩
  | bullet_destroyed => exact ⟨rfl, rfl, rfl⟩

lemma run_ops_base_fields (ops : List PlayerOp) (p : PlayerTank) :
    (p.run_ops ops).base_speed = p.base_speed ∧
    (p.run_ops ops).base_fire_delay = p.base_fire_delay ∧
    (p.run_ops ops).base_bullet_speed = p.base_bullet_speed := by
  induction ops generalizing p with
  | nil => exact ⟨rfl, rfl, rfl⟩
  | cons op rest ih =>
    have h1 := run_op_base_fields p op
    have h2 := ih (p.run_op op)
    exact ⟨h2.1.trans h1.1, h2.2.1.trans h1.2.1, h2.2.2.trans h1.2.2⟩

/-- C8: letting the rapid-fire timer expire restores fire delay, bullet
speed and bullet cap exactly to the pre-power-up base values, whatever
sequence of operations (re-applications included) preceded the expiring
tick. -/
theorem claim_C8_rapid_fire_expiry_restores_base (x y : ℚ) (ops : List PlayerOp)
    (dt : ℚ)
    (h1 : ((PlayerTank.make x y).run_ops ops).rapid_fire_timer > 0)
    (h2 : ((PlayerTank.make x y).run_ops ops).rapid_fire_timer ≤ dt) :
    ((((PlayerTank.make x y).run_ops ops).update_powerups dt).fire_delay =
        PLAYER_FIRE_DELAY ∧
      (((PlayerTank.make x y).run_ops ops).update_powerups dt).bullet_speed =
        PLAYER_BULLET_SPEED ∧
      (((PlayerTank.make x y).run_ops ops).update_powerups dt).max_bullets = 1) ∧
    (((PlayerTank.make x y).run_ops ops).update_powerups dt).fire_delay =
      (PlayerTank.make x y).fire_delay ∧
    (((PlayerTank.make x y).run_ops ops).update_powerups dt).bullet_speed =
      (PlayerTank.make x y).bullet_speed := by
  have hbase := run_ops_base_fields ops (PlayerTank.make x y)
  set q := (PlayerTank.make x y).run_ops ops with hq
  have hfd : q.base_fire_delay = PLAYER_FIRE_DELAY := hbase.2.1
  have hbs : q.base_bullet_speed = PLAYER_BULLET_SPEED := hbase.2.2
  have hexp : max 0 (q.rapid_fire_timer - dt) ≤ 0 :=
    max_le (le_refl 0) (by linarith)
  have hmain : (q.update_powerups dt).fire_delay = PLAYER_FIRE_DELAY ∧
      (q.update_powerups dt).bullet_speed = PLAYER_BULLET_SPEED ∧
      (q.update_powerups dt).max_bullets = 1 := by
    unfold PlayerTank.update_powerups
    rw [if_pos h1]
    dsimp only
    rw [if_pos hexp]
    dsimp only
    split_ifs <;> exact ⟨hfd, hbs, rfl⟩
  exact ⟨hmain, hmain.1, hmain.2.1⟩

/-- Witness for C8: apply rapid fire once and let it run out in a single
tick; delay, speed and cap are back at the base values. -/
theorem claim_C8_witness :
    (((PlayerTank.make 288 552).run_ops [.apply_bonus .rapid_fire]).rapid_fire_timer > 0 ∧
      ((PlayerTank.make 288 552).run_ops [.apply_bonus .rapid_fire]).rapid_fire_timer ≤ 8) ∧
    ((((PlayerTank.make 288 552).run_ops [.apply_bonus .rapid_fire]).update_powerups 8).fire_delay =
        PLAYER_FIRE_DELAY ∧
      (((PlayerTank.make 288 552).run_ops [.apply_bonus .rapid_fire]).update_powerups 8).bullet_speed =
        PLAYER_BULLET_SPEED ∧
      (((PlayerTank.make 288 552).run_ops [.apply_bonus .rapid_fire]).update_powerups 8).max_bullets = 1) := by
  have h := claim_C8_rapid_fire_expiry_restores_base 288 552
    [.apply_bonus .rapid_fire] 8
    (by with_unfolding_all decide) (by with_unfolding_all decide)
  exact ⟨⟨by with_unfolding_all decide, by with_unfolding_all decide⟩, h.1⟩

/-- Every core operation except a power-up tick preserves the bullet-cap
invariant. -/
lemma run_op_caps (p : PlayerTank) (op : PlayerOp)
    (hop : op.is_powerup_tick = false) (h : caps_inv p) : caps_inv (p.run_op op) := by
  obtain ⟨h1, h2⟩ := h
  cases op with
  | update_timers dt =>
    unfold caps_inv PlayerTank.run_op Tank.update_timers
    dsimp only
    split_ifs <;> exact ⟨h1, h2⟩
  | update_powerups dt => simp [PlayerOp.is_powerup_tick] at hop
  | apply_bonus b =>
    cases b with
    | shield => exact ⟨h1, h2⟩
    | rapid_fire => exact ⟨le_trans h1 h2, le_refl 2⟩
    | speed => exact ⟨h1, h2⟩
    | extra_life => exact ⟨h1, h2⟩
  | fire_req bid =>
    unfold caps_inv PlayerTank.run_op Tank.fire
    dsimp only
    split_ifs with hc
    · exact ⟨h1, h2⟩
    · dsimp only
      have hcf : p.toTank.can_fire = true := by
        revert hc
        cases p.toTank.can_fire <;> simp
      unfold Tank.can_fire at hcf
      simp only [Bool.and_eq_true, decide_eq_true_eq] at hcf
      exact ⟨by omega, h2⟩
  | bullet_destroyed =>
    unfold caps_inv PlayerTank.run_op Tank.on_bullet_destroyed
    dsimp only
    split_ifs <;> try dsimp only
    · exact ⟨by omega, h2⟩
    · exact ⟨h1, h2⟩

lemma run_ops_caps (ops : List PlayerOp) (p : PlayerTank) (h : caps_inv p)
    (hops : ∀ op ∈ ops, op.is_powerup_tick = false) : caps_inv (p.run_ops ops) := by
  induction ops generalizing p with
  | nil => exact h
  | cons op rest ih =>
    exact ih (p.run_op op) (run_op_caps p op (hops op (List.mem_cons_self _ _)) h)
      fun o ho => hops o (List.mem_cons_of_mem _ ho)

/-- C1 (amended): under sequences of fire requests, bullet destructions,
timer ticks, and power-up applications — power-up expiry ticks excluded —
`active_bullets ≤ max_bullets` is an invariant (the cap itself never exceeds
the rapid-fire value 2); and a fire request while at the cap, or while the
cooldown has not elapsed, returns no bullet and leaves the tank untouched.
The excluded case is real: a power-up expiry can lower the cap below the
number of bullets in flight (see the counterexample). -/
theorem claim_C1_bullet_cap (p : PlayerTank) (ops : List PlayerOp) (t : Tank)
    (bid : ℕ) :
    (caps_inv p → (∀ op ∈ ops, op.is_powerup_tick = false) →
      caps_inv (p.run_ops ops)) ∧
    (t.active_bullets = t.max_bullets ∨ 0 < t.cooldown_timer →
      t.fire bid = (t, none)) := by
  constructor
  · exact fun h hops => run_ops_caps ops p h hops
  · intro h
    have hcf : t.can_fire = false := by
      unfold Tank.can_fire
      rcases h with h | h
      · simp [h]
      · have h2 : ¬ t.cooldown_timer ≤ 0 := not_le.mpr h
        simp [h2]
    unfold Tank.fire
    rw [if_pos (by simp [hcf])]

/-- Counterexample for C1 as stated: after rapid fire, two shots and the
power-up expiry, the player owns two live bullets against a cap of one, so
`active_bullets ≤ max_bullets` does not survive power-up expiry. -/
theorem claim_C1_counterexample :
    (test_player.run_ops c1_ops).active_bullets = 2 ∧
    (test_player.run_ops c1_ops).max_bullets = 1 ∧
    ¬((test_player.run_ops c1_ops).active_bullets ≤
      (test_player.run_ops c1_ops).max_bullets) := by
  refine ⟨?_, ?_, ?_⟩ <;> with_unfolding_all decide

/-- Witness for C1: the invariant holds along a fire request from the fresh
player, and firing at the cap returns no bullet and changes nothing. -/
theorem claim_C1_witness :
    (caps_inv test_player ∧
      caps_inv (test_player.run_ops [.fire_req 1, .update_timers 1, .bullet_destroyed])) ∧
    ({ test_player.toTank with active_bullets := 1 }.fire 9 =
      ({ test_player.toTank with active_bullets := 1 }, none)) := by
  have h1 := (claim_C1_bullet_cap test_player
    [.fire_req 1, .update_timers 1, .bullet_destroyed] test_player.toTank 9).1
    (by constructor <;> with_unfolding_all decide) (by intro op hop; fin_cases hop <;> rfl)
  have h2 := (claim_C1_bullet_cap test_player []
    { test_player.toTank with active_bullets := 1 } 9).2
    (Or.inl (by with_unfolding_all decide))
  exact ⟨⟨by constructor <;> with_unfolding_all decide, h1⟩, h2⟩

/-- C6 (amended): while the player is dead, a respawn-update step completes
the dead-to-active transition exactly when the counted-down timer has reached
zero and the spawn rect is simultaneously unblocked by terrain and
overlapping no enemy; completion resets position to the spawn point, facing
up, cooldown zero, no owned bullets, and the fixed 2.5 s grace
invulnerability.  When the timer has reached zero but the spawn is blocked
or occupied the timer is re-armed to the 0.25 s retry delay; when the timer
has not yet reached zero the step merely continues the countdown (it does
not set the retry delay, contrary to the claim as stated — see the
counterexample); in both cases the player stays dead. -/
theorem claim_C6_respawn_polling (p : PlayerTank) (dt : ℚ) (lvl : Level)
    (es : List EnemyTank) (hdead : p.dead = true) :
    (0 < max 0 (p.respawn_timer - dt) →
      p.update_respawn dt lvl es =
        { p with respawn_timer := max 0 (p.respawn_timer - dt) }) ∧
    (max 0 (p.respawn_timer - dt) ≤ 0 →
      (lvl.is_rect_blocked
          ⟨py_int p.spawn_x, py_int p.spawn_y, p.rect.width, p.rect.height⟩ ||
        es.any fun enemy =>
          Rect.colliderect
            ⟨py_int p.spawn_x, py_int p.spawn_y, p.rect.width, p.rect.height⟩
            enemy.rect) = true →
      p.update_respawn dt lvl es = { p with respawn_timer := 0.25 }) ∧
    (max 0 (p.respawn_timer - dt) ≤ 0 →
      (lvl.is_rect_blocked
          ⟨py_int p.spawn_x, py_int p.spawn_y, p.rect.width, p.rect.height⟩ ||
        es.any fun enemy =>
          Rect.colliderect
            ⟨py_int p.spawn_x, py_int p.spawn_y, p.rect.width, p.rect.height⟩
            enemy.rect) = false →
      p.update_respawn dt lvl es =
        { p with
            pos_x := p.spawn_x, pos_y := p.spawn_y
            rect := ⟨py_int p.spawn_x, py_int p.spawn_y, p.rect.width, p.rect.height⟩
            direction := .up, dead := false, active := true
            invulnerable_timer := 2.5, cooldown_timer := 0, active_bullets := 0
            respawn_timer := 0 }) ∧
    ((p.update_respawn dt lvl es).dead = false ↔
      (max 0 (p.respawn_timer - dt) ≤ 0 ∧
        (lvl.is_rect_blocked
            ⟨py_int p.spawn_x, py_int p.spawn_y, p.rect.width, p.rect.height⟩ ||
          es.any fun enemy =>
            Rect.colliderect
              ⟨py_int p.spawn_x, py_int p.spawn_y, p.rect.width, p.rect.height⟩
              enemy.rect) = false)) := by
  have hstep : ∀ (q : PlayerTank), q = { p with respawn_timer := max 0 (p.respawn_timer - dt) } →
      p.update_respawn dt lvl es =
        (if q.respawn_timer > 0 then q
         else
          if lvl.is_rect_blocked ⟨py_int q.spawn_x, py_int q.spawn_y, q.rect.width, q.rect.height⟩ then
            { q with respawn_timer := 0.25 }
          else if es.any fun enemy =>
              Rect.colliderect ⟨py_int q.spawn_x, py_int q.spawn_y, q.rect.width, q.rect.height⟩ enemy.rect then
            { q with respawn_timer := 0.25 }
          else
            { q with
                pos_x := q.spawn_x, pos_y := q.spawn_y
                rect := ⟨py_int q.spawn_x, py_int q.spawn_y, q.rect.width, q.rect.height⟩
                direction := .up, dead := false, active := true
                invulnerable_timer := 2.5, cooldown_timer := 0, active_bullets := 0 }) := by
    intro q hq
    subst hq
    unfold PlayerTank.update_respawn
    rw [if_neg (by simp [hdead])]
  rw [hstep _ rfl]
  dsimp only
  refine ⟨?_, ?_, ?_, ?_⟩
  · intro h
    rw [if_pos h]
  · intro h hocc
    rw [if_neg (not_lt.mpr h)]
    rcases Bool.or_eq_true_iff.mp hocc with hb | hb
    · rw [if_pos hb]
    · by_cases hblk : lvl.is_rect_blocked
          ⟨py_int p.spawn_x, py_int p.spawn_y, p.rect.width, p.rect.height⟩ = true
      · rw [if_pos hblk]
      · simp only [Bool.not_eq_true] at hblk
        rw [if_neg (by simp [hblk]), if_pos hb]
  · intro h hocc
    simp only [Bool.or_eq_false_iff] at hocc
    rw [if_neg (not_lt.mpr h), if_neg (by simp [hocc.1]), if_neg (by simp [hocc.2])]
    have h0 : max 0 (p.respawn_timer - dt) = 0 := le_antisymm h (le_max_left _ _)
    rw [h0]
  · constructor
    · intro hcomp
      by_cases h : 0 < max 0 (p.respawn_timer - dt)
      · rw [if_pos h] at hcomp
        rw [hdead] at hcomp
        cases hcomp
      · have h2 := not_lt.mp h
        refine ⟨h2, ?_⟩
        by_cases hblk : lvl.is_rect_blocked
            ⟨py_int p.spawn_x, py_int p.spawn_y, p.rect.width, p.rect.height⟩ = true
        · rw [if_neg (not_lt.mpr h2), if_pos hblk] at hcomp
          rw [hdead] at hcomp
          cases hcomp
        · simp only [Bool.not_eq_true] at hblk
          by_cases hany : (es.any fun enemy =>
              Rect.colliderect
                ⟨py_int p.spawn_x, py_int p.spawn_y, p.rect.width, p.rect.height⟩
                enemy.rect) = true
          · rw [if_neg (not_lt.mpr h2), if_neg (by simp [hblk]), if_pos hany] at hcomp
            rw [hdead] at hcomp
            cases hcomp
          · simp only [Bool.not_eq_true] at hany
            simp [hblk, hany]
    · rintro ⟨h, hocc⟩
      simp only [Bool.or_eq_false_iff] at hocc
      rw [if_neg (not_lt.mpr h), if_neg (by simp [hocc.1]), if_neg (by simp [hocc.2])]

/-- Counterexample for C6 as stated: a dead player whose countdown still has
4.9 s to run is left counting down, not re-armed to the 0.25 s retry delay,
after a 0.1 s step. -/
theorem claim_C6_counterexample :
    c6_player.dead = true ∧
    (c6_player.update_respawn (1/10) test_level []).respawn_timer = 49/10 ∧
    (c6_player.update_respawn (1/10) test_level []).dead = true ∧
    ¬((49 : ℚ)/10 = 0.25) ∧ ¬((49 : ℚ)/10 = 0) := by
  refine ⟨rfl, ?_, ?_, ?_, ?_⟩ <;> with_unfolding_all decide

/-- Witness for C6: a dead player whose countdown has reached zero over a
free spawn cell completes the respawn with the reset stats. -/
theorem claim_C6_witness :
    (c6_done_player.dead = true ∧
      max 0 (c6_done_player.respawn_timer - 1/10) ≤ 0) ∧
    c6_done_player.update_respawn (1/10) test_level [] =
      { c6_done_player with
          pos_x := c6_done_player.spawn_x, pos_y := c6_done_player.spawn_y
          rect := ⟨py_int c6_done_player.spawn_x, py_int c6_done_player.spawn_y,
            c6_done_player.rect.width, c6_done_player.rect.height⟩
          direction := .up, dead := false, active := true
          invulnerable_timer := 2.5, cooldown_timer := 0, active_bullets := 0
          respawn_timer := 0 } := by
  refine ⟨⟨rfl, by with_unfolding_all decide⟩, ?_⟩
  exact (claim_C6_respawn_polling c6_done_player (1/10) test_level [] rfl).2.2.1
    (by with_unfolding_all decide) (by with_unfolding_all decide)

/-! ### Lemmas about the spawner -/

lemma spawn_loop_all_blocked {g : Game} {variant : Variant} {cdt ft : ℚ}
    {tid : ℕ} : ∀ order : List (ℤ × ℤ),
    (∀ s ∈ order, g.spawn_blocked ⟨s.1, s.2, TILE_SIZE, TILE_SIZE⟩ = true) →
    g.spawn_loop variant cdt ft tid order = (g, false)
  | [], _ => rfl
  | s :: rest, h => by
    unfold Game.spawn_loop
    rw [if_pos (h s (List.mem_cons_self _ _))]
    exact spawn_loop_all_blocked rest fun x hx => h x (List.mem_cons_of_mem _ hx)

lemma spawn_loop_first_free {g : Game} {variant : Variant} {cdt ft : ℚ}
    {tid : ℕ} {s0 : ℤ × ℤ} : ∀ order : List (ℤ × ℤ),
    order.find? (fun s => !g.spawn_blocked ⟨s.1, s.2, TILE_SIZE, TILE_SIZE⟩) =
      some s0 →
    g.spawn_loop variant cdt ft tid order =
      ({ g with
          enemies := g.enemies ++
            [EnemyTank.make tid (s0.1 : ℚ) (s0.2 : ℚ) variant cdt ft]
          remaining_enemies := g.remaining_enemies - 1 },
        true)
  | [], h => by cases h
  | s :: rest, h => by
    by_cases hs : g.spawn_blocked ⟨s.1, s.2, TILE_SIZE, TILE_SIZE⟩ = true
    · rw [List.find?_cons_of_neg _ (by simp [hs])] at h
      unfold Game.spawn_loop
      rw [if_pos hs]
      exact spawn_loop_first_free rest h
    · simp only [Bool.not_eq_true] at hs
      rw [List.find?_cons_of_pos _ (by simp [hs])] at h
      cases h
      unfold Game.spawn_loop
      rw [if_neg (by simp [hs])]

lemma spawn_loop_length {g : Game} {variant : Variant} {cdt ft : ℚ}
    {tid : ℕ} : ∀ order : List (ℤ × ℤ),
    (g.spawn_loop variant cdt ft tid order).1.enemies.length ≤
      g.enemies.length + 1
  | [] => Nat.le_succ _
  | s :: rest => by
    unfold Game.spawn_loop
    dsimp only
    split_ifs
    · exact spawn_loop_length rest
    · simp

/-- C7: a spawn attempt with at least one enemy remaining whose candidate
cells are all blocked fails totally and silently, returning the game
unchanged; when some candidate is free it appends exactly the one new enemy
at the first free cell of the shuffled order and decrements the remaining
counter by one; and no attempt raises the live-enemy count above the
`MAX_ACTIVE_ENEMIES` cap. -/
theorem claim_C7_spawn_attempt (g : Game) (order : List (ℤ × ℤ))
    (variant : Variant) (cdt ft : ℚ) (tid : ℕ) :
    (1 ≤ g.remaining_enemies →
      (∀ s ∈ order, g.spawn_blocked ⟨s.1, s.2, TILE_SIZE, TILE_SIZE⟩ = true) →
      g.spawn_enemy order variant cdt ft tid = (g, false)) ∧
    (∀ s0, 1 ≤ g.remaining_enemies → g.enemies.length < MAX_ACTIVE_ENEMIES →
      order.find? (fun s => !g.spawn_blocked ⟨s.1, s.2, TILE_SIZE, TILE_SIZE⟩) =
        some s0 →
      g.spawn_enemy order variant cdt ft tid =
        ({ g with
            enemies := g.enemies ++
              [EnemyTank.make tid (s0.1 : ℚ) (s0.2 : ℚ) variant cdt ft]
            remaining_enemies := g.remaining_enemies - 1 },
          true)) ∧
    ((g.spawn_enemy order variant cdt ft tid).1.enemies.length ≤
      max g.enemies.length MAX_ACTIVE_ENEMIES) := by
  refine ⟨?_, ?_, ?_⟩
  · intro hrem hall
    unfold Game.spawn_enemy
    rw [if_neg (by omega)]
    by_cases hcap : MAX_ACTIVE_ENEMIES ≤ g.enemies.length
    · rw [if_pos hcap]
    · rw [if_neg hcap]
      exact spawn_loop_all_blocked order hall
  · intro s0 hrem hcap hfind
    unfold Game.spawn_enemy
    rw [if_neg (by omega), if_neg (not_le.mpr hcap)]
    exact spawn_loop_first_free order hfind
  · unfold Game.spawn_enemy
    split_ifs with h1 h2
    · exact le_max_left _ _
    · exact le_max_left _ _
    · calc (g.spawn_loop variant cdt ft tid order).1.enemies.length
          ≤ g.enemies.length + 1 := spawn_loop_length order
        _ ≤ MAX_ACTIVE_ENEMIES := by omega
        _ ≤ max g.enemies.length MAX_ACTIVE_ENEMIES := le_max_right _ _

/-- Witness for C7: three enemies already sit on the three candidate cells;
with two enemies still to spawn the attempt returns false and the game is
unchanged. -/
theorem claim_C7_witness :
    ((1 : ℤ) ≤ c7_game.remaining_enemies ∧
      (∀ s ∈ SPAWN_POINTS,
        c7_game.spawn_blocked ⟨s.1, s.2, TILE_SIZE, TILE_SIZE⟩ = true)) ∧
    c7_game.spawn_enemy SPAWN_POINTS .basic 2 2 9 = (c7_game, false) := by
  refine ⟨⟨by with_unfolding_all decide, by with_unfolding_all decide⟩, ?_⟩
  exact (claim_C7_spawn_attempt c7_game SPAWN_POINTS .basic 2 2 9).1
    (by with_unfolding_all decide) (by with_unfolding_all decide)

/-! ### Lemmas about the bullet-vs-bullet annihilation pass -/

lemma colliderect_comm (a b : Rect) : a.colliderect b = b.colliderect a := by
  have hperm : ∀ p q r s : Bool, (p && q && r && s) = (r && s && p && q) := by
    decide
  unfold Rect.colliderect
  exact hperm _ _ _ _

lemma annihilation_step_mono {a c : Bullet} {acc : List Bullet} {x : Bullet}
    (hx : x ∈ acc) : x ∈ annihilation_step a acc c := by
  unfold annihilation_step
  dsimp only
  split_ifs <;> simp_all [List.mem_append]

lemma annihilation_inner_mono {a : Bullet} {x : Bullet} :
    ∀ {rest acc : List Bullet}, x ∈ acc → x ∈ annihilation_inner a acc rest := by
  intro rest
  induction rest with
  | nil => exact fun hx => hx
  | cons c r ih =>
    intro acc hx
    exact ih (annihilation_step_mono hx)

lemma annihilation_scan_mono {x : Bullet} :
    ∀ {l acc : List Bullet}, x ∈ acc → x ∈ annihilation_scan acc l := by
  intro l
  induction l with
  | nil => exact fun hx => hx
  | cons c r ih =>
    intro acc hx
    exact ih (annihilation_inner_mono hx)

lemma annihilation_step_adds {a c : Bullet} {acc : List Bullet}
    (hf : ¬a.friendly = c.friendly) (hc : a.rect.colliderect c.rect = true) :
    a ∈ annihilation_step a acc c ∧ c ∈ annihilation_step a acc c := by
  unfold annihilation_step
  rw [if_neg hf, if_pos hc]
  dsimp only
  split_ifs <;> constructor <;> simp_all [List.mem_append]

lemma annihilation_inner_adds {a c : Bullet} :
    ∀ {rest acc : List Bullet}, c ∈ rest → ¬a.friendly = c.friendly →
    a.rect.colliderect c.rect = true →
    a ∈ annihilation_inner a acc rest ∧ c ∈ annihilation_inner a acc rest := by
  intro rest
  induction rest with
  | nil => intro acc h; cases h
  | cons d r ih =>
    intro acc hmem hf hc
    rcases List.mem_cons.mp hmem with rfl | hr
    · have h2 : a ∈ annihilation_step a acc c ∧ c ∈ annihilation_step a acc c :=
        annihilation_step_adds hf hc
      constructor
      · show a ∈ annihilation_inner a (annihilation_step a acc c) r
        exact annihilation_inner_mono h2.1
      · show c ∈ annihilation_inner a (annihilation_step a acc c) r
        exact annihilation_inner_mono h2.2
    · show a ∈ annihilation_inner a (annihilation_step a acc d) r ∧
        c ∈ annihilation_inner a (annihilation_step a acc d) r
      exact ih hr hf hc

lemma annihilation_scan_pair {a b : Bullet} :
    ∀ (l acc : List Bullet), a ∈ l → b ∈ l →
    ¬a.friendly = b.friendly → a.rect.colliderect b.rect = true →
    a ∈ annihilation_scan acc l ∧ b ∈ annihilation_scan acc l := by
  intro l
  induction l with
  | nil => intro acc h; cases h
  | cons c r ih =>
    intro acc ha hb hf hc
    have hab : a ≠ b := fun h => hf (h ▸ rfl)
    rcases List.mem_cons.mp ha with rfl | ha2
    · rcases List.mem_cons.mp hb with rfl | hb2
      · exact absurd rfl hab
      · have h2 : a ∈ annihilation_inner a acc r ∧ b ∈ annihilation_inner a acc r :=
          annihilation_inner_adds hb2 hf hc
        constructor
        · show a ∈ annihilation_scan (annihilation_inner a acc r) r
          exact annihilation_scan_mono h2.1
        · show b ∈ annihilation_scan (annihilation_inner a acc r) r
          exact annihilation_scan_mono h2.2
    · rcases List.mem_cons.mp hb with rfl | hb2
      · have h2 : b ∈ annihilation_inner b acc r ∧ a ∈ annihilation_inner b acc r :=
          annihilation_inner_adds ha2 (fun h => hf h.symm)
            (by rw [colliderect_comm]; exact hc)
        constructor
        · show a ∈ annihilation_scan (annihilation_inner b acc r) r
          exact annihilation_scan_mono h2.2
        · show b ∈ annihilation_scan (annihilation_inner b acc r) r
          exact annihilation_scan_mono h2.1
      · show a ∈ annihilation_scan (annihilation_inner c acc r) r ∧
          b ∈ annihilation_scan (annihilation_inner c acc r) r
        exact ih (annihilation_inner c acc r) ha2 hb2 hf hc

lemma nodup_concat_of {l : List Bullet} {x : Bullet} (h : l.Nodup)
    (hx : x ∉ l) : (l ++ [x]).Nodup := by
  simp [List.nodup_append, h, hx]

lemma annihilation_step_nodup {a c : Bullet} {acc : List Bullet}
    (h : acc.Nodup) : (annihilation_step a acc c).Nodup := by
  unfold annihilation_step
  dsimp only
  split_ifs with h1 h2 h3 h4 h5
  · exact h
  · exact h
  · exact nodup_concat_of h h4
  · exact nodup_concat_of h h3
  · exact nodup_concat_of (nodup_concat_of h h3) h5
  · exact h

lemma annihilation_inner_nodup {a : Bullet} :
    ∀ {rest acc : List Bullet}, acc.Nodup → (annihilation_inner a acc rest).Nodup := by
  intro rest
  induction rest with
  | nil => exact fun h => h
  | cons c r ih => exact fun h => ih (annihilation_step_nodup h)

lemma annihilation_scan_nodup :
    ∀ {l acc : List Bullet}, acc.Nodup → (annihilation_scan acc l).Nodup := by
  intro l
  induction l with
  | nil => exact fun h => h
  | cons c r ih => exact fun h => ih (annihilation_inner_nodup h)

lemma annihilation_step_subset {a c : Bullet} {acc : List Bullet} {x : Bullet}
    (hx : x ∈ annihilation_step a acc c) : x ∈ acc ∨ x = a ∨ x = c := by
  unfold annihilation_step at hx
  dsimp only at hx
  split_ifs at hx <;>
    (try simp only [List.mem_append, List.mem_singleton, List.mem_cons,
      List.not_mem_nil, or_false] at hx) <;>
    tauto

lemma annihilation_inner_subset {a : Bullet} {x : Bullet} :
    ∀ {rest acc : List Bullet}, x ∈ annihilation_inner a acc rest →
    x ∈ acc ∨ x = a ∨ x ∈ rest := by
  intro rest
  induction rest with
  | nil => exact fun hx => Or.inl hx
  | cons c r ih =>
    intro acc hx
    rcases ih hx with h | h | h
    · rcases annihilation_step_subset h with h2 | h2 | h2
      · exact Or.inl h2
      · exact Or.inr (Or.inl h2)
      · exact Or.inr (Or.inr (h2 ▸ List.mem_cons_self _ _))
    · exact Or.inr (Or.inl h)
    · exact Or.inr (Or.inr (List.mem_cons_of_mem _ h))

lemma annihilation_scan_subset {x : Bullet} :
    ∀ {l acc : List Bullet}, x ∈ annihilation_scan acc l →
    x ∈ acc ∨ x ∈ l := by
  intro l
  induction l with
  | nil => exact fun hx => Or.inl hx
  | cons c r ih =>
    intro acc hx
    rcases ih hx with h | h
    · rcases annihilation_inner_subset h with h2 | h2 | h2
      · exact Or.inl h2
      · exact Or.inr (h2 ▸ List.mem_cons_self _ _)
      · exact Or.inr (List.mem_cons_of_mem _ h2)
    · exact Or.inr (List.mem_cons_of_mem _ h)

lemma on_bullet_destroyed_tid (t : Tank) :
    (t.on_bullet_destroyed).tid = t.tid := by
  unfold Tank.on_bullet_destroyed
  split_ifs <;> rfl

lemma on_bullet_destroyed_active (t : Tank) :
    (t.on_bullet_destroyed).active_bullets = t.active_bullets - 1 := by
  unfold Tank.on_bullet_destroyed
  split_ifs with h
  · rfl
  · omega

lemma find_tid_map (f : EnemyTank → EnemyTank) (hf : ∀ e, (f e).tid = e.tid)
    (o : ℕ) : ∀ l : List EnemyTank,
    (l.map f).find? (fun e => e.tid == o) =
      ((l.find? fun e => e.tid == o).map f)
  | [] => rfl
  | e :: r => by
    have hpe : ((f e).tid == o) = (e.tid == o) := by rw [hf e]
    simp only [List.map_cons, List.find?_cons, hpe]
    cases hpc : (e.tid == o)
    · exact find_tid_map f hf o r
    · rfl

/-- The effect of an owner notification on the live-bullet counter of each
tank object: the notified owner loses one (floored at zero), every other
counter is untouched. -/
lemma notify_owner_count (g : Game) (o o2 : ℕ) :
    (g.notify_owner o).owner_count o2 =
      if o2 = o then g.owner_count o2 - 1 else g.owner_count o2 := by
  unfold Game.notify_owner
  by_cases ho : o = 0
  · subst ho
    rw [if_pos rfl]
    unfold Game.owner_count
    by_cases h2 : o2 = 0
    · subst h2
      simp [on_bullet_destroyed_active]
    · simp [h2]
  · rw [if_neg ho]
    unfold Game.owner_count
    by_cases h2 : o2 = 0
    · subst h2
      have hno : ¬(0 : ℕ) = o := fun hh => ho hh.symm
      simp [hno]
    · have hfm : ∀ e : EnemyTank,
          ((fun e : EnemyTank =>
            if e.tid = o then { e with toTank := e.toTank.on_bullet_destroyed }
            else e) e).tid = e.tid := by
        intro e
        dsimp only
        split_ifs
        · exact on_bullet_destroyed_tid e.toTank
        · rfl
      rw [if_neg h2, if_neg h2]
      dsimp only
      rw [find_tid_map _ hfm o2 g.enemies]
      cases hfind : g.enemies.find? (fun e => e.tid == o2) with
      | none =>
        by_cases ho2 : o2 = o <;> simp [ho2]
      | some e =>
        have he2 : e.tid = o2 := by simpa using List.find?_some hfind
        by_cases ho2 : o2 = o
        · rw [if_pos ho2]
          have he3 : e.tid = o := he2.trans ho2
          simp [he3, on_bullet_destroyed_active]
        · rw [if_neg ho2]
          have he3 : ¬e.tid = o := fun hh => ho2 (he2.symm.trans hh)
          simp [he3]

lemma remove_bullet_bullets {g : Game} {b : Bullet} (hb : b ∈ g.bullets) :
    (g.remove_bullet b).bullets = g.bullets.erase b := by
  unfold Game.remove_bullet
  rw [if_pos hb, notify_owner_bullets]

lemma remove_bullet_count {g : Game} {b : Bullet} (hb : b ∈ g.bullets) (o : ℕ) :
    (g.remove_bullet b).owner_count o =
      g.owner_count o - (if b.owner = o then 1 else 0) := by
  unfold Game.remove_bullet
  rw [if_pos hb, notify_owner_count]
  have hcount : Game.owner_count { g with bullets := g.bullets.erase b } o =
      g.owner_count o := rfl
  rw [hcount]
  by_cases h : o = b.owner
  · rw [if_pos h, if_pos h.symm]
  · rw [if_neg h, if_neg fun hh => h hh.symm]
    omega

lemma remove_fold_subset : ∀ (rl : List Bullet) (g : Game),
    (rl.foldl Game.remove_bullet g).bullets ⊆ g.bullets
  | [], g => fun _ h => h
  | r :: rest, g => by
    intro x hx
    have h2 := remove_fold_subset rest (g.remove_bullet r) hx
    by_cases hb : r ∈ g.bullets
    · rw [remove_bullet_bullets hb] at h2
      exact List.erase_subset _ _ h2
    · unfold Game.remove_bullet at h2
      rw [if_neg hb] at h2
      exact h2

/-- Removing a duplicate-free sublist of the live bullets removes each of
them from the pool and decrements each owner object's counter once per owned
removed bullet. -/
lemma remove_list : ∀ (rl : List Bullet) (g : Game), rl.Nodup →
    (∀ x ∈ rl, x ∈ g.bullets) → g.bullets.Nodup →
    (∀ x ∈ rl, x ∉ (rl.foldl Game.remove_bullet g).bullets) ∧
    (∀ o, (rl.foldl Game.remove_bullet g).owner_count o =
      g.owner_count o - rl.countP (fun x => x.owner == o))
  | [], g, _, _, _ =>
    ⟨fun x hx => absurd hx (List.not_mem_nil x), fun o => by simp⟩
  | r :: rest, g, hnd, hsub, hgnd => by
    have hr : r ∈ g.bullets := hsub r (List.mem_cons_self _ _)
    have hbul : (g.remove_bullet r).bullets = g.bullets.erase r :=
      remove_bullet_bullets hr
    have hnd1 : (g.remove_bullet r).bullets.Nodup := by
      rw [hbul]; exact hgnd.erase r
    have hsub1 : ∀ x ∈ rest, x ∈ (g.remove_bullet r).bullets := by
      intro x hx
      rw [hbul]
      have hxg : x ∈ g.bullets := hsub x (List.mem_cons_of_mem _ hx)
      have hxr : x ≠ r := fun h => (List.nodup_cons.mp hnd).1 (h ▸ hx)
      exact (List.mem_erase_of_ne hxr).mpr hxg
    have ih := remove_list rest (g.remove_bullet r)
      (List.nodup_cons.mp hnd).2 hsub1 hnd1
    constructor
    · intro x hx
      rcases List.mem_cons.mp hx with hxr | hx2
      · intro hmem
        have h3 := remove_fold_subset rest (g.remove_bullet r) hmem
        rw [hbul] at h3
        exact ((List.Nodup.mem_erase_iff hgnd).mp h3).1 hxr
      · exact ih.1 x hx2
    · intro o
      have hstep := remove_bullet_count hr o
      have hfold : ((r :: rest).foldl Game.remove_bullet g) =
          rest.foldl Game.remove_bullet (g.remove_bullet r) := rfl
      rw [hfold, ih.2 o, hstep, List.countP_cons]
      by_cases h : r.owner = o
      · simp only [h]
        simp
        omega
      · have hb2 : (r.owner == o) = false := by simpa using h
        simp [h, hb2]

/-- C2: mutual bullet annihilation.  If two bullets of opposite factions
overlap among the survivors of the per-bullet pass, both appear in the
removal list of the pairwise scan that runs afterwards, that list holds no
bullet twice, both bullets are gone from the pool at the end of the frame,
and every owner object's live-bullet counter drops by exactly the number of
its bullets in the removal list — in particular by exactly one for each of
the two owners when the pair is their only annihilated bullet. -/
theorem claim_C2_mutual_annihilation (g : Game) (dt : ℚ) (a b : Bullet)
    (hnd : (Game.bullet_pass dt { g with bullets := [] } g.bullets).bullets.Nodup)
    (ha : a ∈ (Game.bullet_pass dt { g with bullets := [] } g.bullets).bullets)
    (hb : b ∈ (Game.bullet_pass dt { g with bullets := [] } g.bullets).bullets)
    (hf : ¬a.friendly = b.friendly)
    (hc : a.rect.colliderect b.rect = true) :
    (a ∈ annihilation_scan []
        (Game.bullet_pass dt { g with bullets := [] } g.bullets).bullets ∧
      b ∈ annihilation_scan []
        (Game.bullet_pass dt { g with bullets := [] } g.bullets).bullets) ∧
    (annihilation_scan []
      (Game.bullet_pass dt { g with bullets := [] } g.bullets).bullets).Nodup ∧
    (a ∉ (g.update_bullets dt).bullets ∧ b ∉ (g.update_bullets dt).bullets) ∧
    (∀ o, (g.update_bullets dt).owner_count o =
      (Game.bullet_pass dt { g with bullets := [] } g.bullets).owner_count o -
        (annihilation_scan []
          (Game.bullet_pass dt { g with bullets := [] } g.bullets).bullets).countP
          (fun x => x.owner == o)) := by
  have hpair := annihilation_scan_pair
    (Game.bullet_pass dt { g with bullets := [] } g.bullets).bullets []
    ha hb hf hc
  have htrnd : (annihilation_scan []
      (Game.bullet_pass dt { g with bullets := [] } g.bullets).bullets).Nodup :=
    annihilation_scan_nodup List.nodup_nil
  have hsubtr : ∀ x ∈ annihilation_scan []
      (Game.bullet_pass dt { g with bullets := [] } g.bullets).bullets,
      x ∈ (Game.bullet_pass dt { g with bullets := [] } g.bullets).bullets := by
    intro x hx
    rcases annihilation_scan_subset hx with h | h
    · exact absurd h (List.not_mem_nil x)
    · exact h
  have hrem := remove_list
    (annihilation_scan []
      (Game.bullet_pass dt { g with bullets := [] } g.bullets).bullets)
    (Game.bullet_pass dt { g with bullets := [] } g.bullets)
    htrnd hsubtr hnd
  have hub : g.update_bullets dt =
      (annihilation_scan []
        (Game.bullet_pass dt { g with bullets := [] } g.bullets).bullets).foldl
        Game.remove_bullet
        (Game.bullet_pass dt { g with bullets := [] } g.bullets) := rfl
  refine ⟨hpair, htrnd, ⟨?_, ?_⟩, ?_⟩
  · rw [hub]
    exact hrem.1 a hpair.1
  · rw [hub]
    exact hrem.1 b hpair.2
  · intro o
    rw [hub]
    exact hrem.2 o

/-- Witness for C2: one player bullet and one enemy bullet overlap after the
per-bullet pass; both are removed and both owners end the frame with zero
live bullets, down from one each. -/
theorem claim_C2_witness :
    ((Game.bullet_pass 0 { c2_game with bullets := [] } c2_game.bullets).bullets.Nodup ∧
      c2_a ∈ (Game.bullet_pass 0 { c2_game with bullets := [] } c2_game.bullets).bullets ∧
      c2_b ∈ (Game.bullet_pass 0 { c2_game with bullets := [] } c2_game.bullets).bullets ∧
      ¬c2_a.friendly = c2_b.friendly ∧
      c2_a.rect.colliderect c2_b.rect = true) ∧
    (c2_a ∉ (c2_game.update_bullets 0).bullets ∧
      c2_b ∉ (c2_game.update_bullets 0).bullets) ∧
    (c2_game.update_bullets 0).owner_count 0 =
      (Game.bullet_pass 0 { c2_game with bullets := [] } c2_game.bullets).owner_count 0 -
        (annihilation_scan []
          (Game.bullet_pass 0 { c2_game with bullets := [] } c2_game.bullets).bullets).countP
          (fun x => x.owner == 0) := by
  have h := claim_C2_mutual_annihilation c2_game 0 c2_a c2_b
    (by with_unfolding_all decide) (by with_unfolding_all decide)
    (by with_unfolding_all decide) (by with_unfolding_all decide)
    (by with_unfolding_all decide)
  exact ⟨⟨by with_unfolding_all decide, by with_unfolding_all decide,
    by with_unfolding_all decide, by with_unfolding_all decide,
    by with_unfolding_all decide⟩, h.2.2.1, h.2.2.2 0⟩

end Tanchiki
